/-
Shallow embedding of the core of CellularAutomatonLighting2D (Main.cpp):
the DoubleBuffer and Grid2D containers, the Field wall grid and its
construction, the light-diffusion automaton, and the light-particle
motion/collision step.  Machine doubles are modelled as exact ordered-field
values (generic `K`, instantiated at `ℚ` for evaluation and at `ℝ` where the
source constants are irrational); C++ containers become lists; the external
Siv3D collaborators (mouse input, random drift, segment/rectangle
intersection) become explicit parameters.
-/
import Mathlib

set_option autoImplicit false

/- Kernel evaluation of concrete scenarios needs the rational arithmetic
operations to unfold; they are irreducible by default. -/
attribute [local semireducible] Rat.mul Rat.inv Rat.add Rat.sub

/-- Integer grid coordinate, mirroring Siv3D `Point` as used by `Main.cpp`. -/
structure Point where
  x : Int
  y : Int
deriving DecidableEq, Repr

instance : Add Point := ⟨fun a b => ⟨a.x + b.x, a.y + b.y⟩⟩


/-- Continuous 2D vector over `ℚ`, mirroring Siv3D `Vec2` (doubles modelled
as exact rationals). -/
structure Vec2 where
  x : ℚ
  y : ℚ
deriving DecidableEq, Repr

namespace Vec2

def add (a b : Vec2) : Vec2 := ⟨a.x + b.x, a.y + b.y⟩

def sub (a b : Vec2) : Vec2 := ⟨a.x - b.x, a.y - b.y⟩

def scale (a : ℚ) (v : Vec2) : Vec2 := ⟨v.x * a, v.y * a⟩

def lengthSq (v : Vec2) : ℚ := v.x * v.x + v.y * v.y

/-- Truncation toward zero of a rational, mirroring the C++ `double → int`
cast performed by Siv3D `Vec2::asPoint`. -/
def ratTrunc (q : ℚ) : Int := Int.tdiv q.num (q.den : Int)

/-- Siv3D `Vec2::asPoint`: componentwise truncation toward zero. -/
def asPoint (v : Vec2) : Point := ⟨ratTrunc v.x, ratTrunc v.y⟩

end Vec2

/-- RGB color with channels in `K`, mirroring Siv3D `ColorF` (alpha is
irrelevant to the diffusion code and omitted). -/
@[ext] structure ColorF (K : Type) where
  r : K
  g : K
  b : K
deriving DecidableEq, Repr

namespace ColorF

variable {K : Type} [LinearOrderedField K]

/-- `Palette::Black` as a `ColorF`. -/
def black : ColorF K := ⟨0, 0, 0⟩

/-- Multiply every channel by `a` (the `.r*a`, `.g*a`, `.b*a` pattern of
`stepLightDiffusion`). -/
def scale (a : K) (c : ColorF K) : ColorF K := ⟨c.r * a, c.g * a, c.b * a⟩

end ColorF

/-- `Grid2D<T>` from Main.cpp: a vector of rows (`m_grid[y][x]`). -/
abbrev Grid2D (α : Type) : Type := List (List α)

namespace Grid2D

variable {α : Type}

/-- `Grid2D::height()`: number of rows. -/
def height (g : Grid2D α) : Nat := g.length

/-- `Grid2D::width()`: 0 for an empty grid, else the first row's length. -/
def width (g : Grid2D α) : Nat :=
  match g with
  | [] => 0
  | row :: _ => row.length

/-- `Grid2D::isValid(p)`: `0 ≤ p.y < height ∧ 0 ≤ p.x < m_grid[p.y].size()`
(the row size is only consulted after `p.y` passed its bound, matching the
short-circuit `&&` of the source). -/
def isValidB (g : Grid2D α) (p : Point) : Bool :=
  decide (0 ≤ p.y) && decide (p.y < (g.length : Int)) &&
    decide (0 ≤ p.x) && decide (p.x < ((g.getD p.y.toNat []).length : Int))

/-- Element read `m_grid[p.y][p.x]`.  The C++ access is unchecked; the
embedding totalises it with an explicit default, which callers only rely on
at indices proven in bounds. -/
def getP (g : Grid2D α) (d : α) (p : Point) : α :=
  (g.getD p.y.toNat []).getD p.x.toNat d

/-- Element write `m_grid[p.y][p.x] = v` (no-op out of bounds; all source
call sites are guarded by `isValid`). -/
def setP (g : Grid2D α) (p : Point) (v : α) : Grid2D α :=
  g.set p.y.toNat ((g.getD p.y.toNat []).set p.x.toNat v)

/-- `Grid2D::reset(value)`: overwrite every cell. -/
def reset (g : Grid2D α) (v : α) : Grid2D α :=
  g.map (fun row => row.map (fun _ => v))

/-- The grid is rectangular: every row has length `width`.  All grids the
program constructs satisfy this. -/
def Rect (g : Grid2D α) : Prop := ∀ row ∈ g, row.length = width g

instance (g : Grid2D α) : Decidable (Rect g) := by
  unfold Rect; infer_instance

end Grid2D

/-- `DoubleBuffer<T>` from Main.cpp: two instances of `T` plus the index of
the current write half.  `m_currentWriteBuffer` is modelled as `Fin 2` since
every index expression in the source is taken `% m_buffer.size() = % 2`. -/
structure DoubleBuffer (T : Type) where
  buffer0 : T
  buffer1 : T
  currentWrite : Fin 2

namespace DoubleBuffer

variable {T : Type}

/-- The value constructor `DoubleBuffer(initial)`: both halves start equal. -/
def mkInit (initial : T) : DoubleBuffer T := ⟨initial, initial, 0⟩

/-- `writeIndex()`. -/
def writeIndex (d : DoubleBuffer T) : Fin 2 := d.currentWrite

/-- `readIndex()`: `(m_currentWriteBuffer + 1) % 2`. -/
def readIndex (d : DoubleBuffer T) : Fin 2 := d.currentWrite + 1

/-- `m_buffer[i]`. -/
def bufAt (d : DoubleBuffer T) (i : Fin 2) : T :=
  if i = 0 then d.buffer0 else d.buffer1

/-- `write()`: the currently-inactive half, by value. -/
def write (d : DoubleBuffer T) : T := bufAt d (writeIndex d)

/-- `read()`: the currently-active half. -/
def read (d : DoubleBuffer T) : T := bufAt d (readIndex d)

/-- Assignment through the reference returned by `write()`. -/
def setWrite (d : DoubleBuffer T) (v : T) : DoubleBuffer T :=
  if d.currentWrite = 0 then { d with buffer0 := v } else { d with buffer1 := v }

/-- `flip()`: advance the write index mod 2; neither stored instance moves. -/
def flip (d : DoubleBuffer T) : DoubleBuffer T :=
  { d with currentWrite := d.currentWrite + 1 }

end DoubleBuffer

namespace Field

/-- `Field::FieldWall()`: the solid-cell marker (the `char` cast of `true`
is modelled directly as `true`). -/
def FieldWall : Bool := true

/-- `Field::FieldSpace()`: the open-cell marker. -/
def FieldSpace : Bool := false

/-- `Field::isWall(p)`: unchecked read of `m_isWall[p.y][p.x]` compared with
`FieldWall()`; out-of-bounds reads are totalised to `FieldSpace`. -/
def isWall (wall : Grid2D Bool) (p : Point) : Bool :=
  Grid2D.getP wall FieldSpace p == FieldWall

/-- `Field::checkInitialValidness`: both pixel dimensions must divide evenly
by the cell size. -/
def checkInitialValidness (fieldWidth fieldHeight gridUnitPixel : Nat) : Bool :=
  fieldWidth % gridUnitPixel == 0 && fieldHeight % gridUnitPixel == 0

/-- The wall grid `Field::init()` builds: every cell starts `FieldSpace()`,
then the outer ring (x = 0, y = 0, x+1 = width, y+1 = height) is set to
`FieldWall()`. -/
def initWalls (w h : Nat) : Grid2D Bool :=
  (List.range h).map (fun y =>
    (List.range w).map (fun x =>
      if x = 0 || y = 0 || x + 1 = w || y + 1 = h then FieldWall else FieldSpace))

/-- `Field` construction: the grids are sized `width/unit × height/unit`;
the body then runs `checkInitialValidness` (assert-terminate on failure,
modelled as `none`) and `init()`.  The result carries the wall grid and the
double-buffered brightness grid. -/
def construct (fieldWidth fieldHeight gridUnitPixel : Nat) :
    Option (Grid2D Bool × DoubleBuffer (Grid2D (ColorF ℚ))) :=
  let w := fieldWidth / gridUnitPixel
  let h := fieldHeight / gridUnitPixel
  if checkInitialValidness fieldWidth fieldHeight gridUnitPixel then
    some (initWalls w h,
      DoubleBuffer.mkInit (List.replicate h (List.replicate w ColorF.black)))
  else
    none

/-- `Field::mouseGridPos`: pixel position over C++ integer division
(truncation toward zero) by the cell size. -/
def mouseGridPos (gridUnitPixel : Int) (mousePix : Point) : Point :=
  ⟨Int.tdiv mousePix.x gridUnitPixel, Int.tdiv mousePix.y gridUnitPixel⟩

/-- The wall-edit block at the top of `Field::update()`: if the mouse cell
is valid, left press paints `FieldWall()`, right press paints
`FieldSpace()` (in that order, so a simultaneous right press wins). -/
def applyWallEdit (wall : Grid2D Bool) (gridUnitPixel : Int) (mousePix : Point)
    (pressL pressR : Bool) : Grid2D Bool :=
  let mp := mouseGridPos gridUnitPixel mousePix
  if Grid2D.isValidB wall mp then
    let w1 := if pressL then Grid2D.setP wall mp FieldWall else wall
    if pressR then Grid2D.setP w1 mp FieldSpace else w1
  else
    wall

/-- `Field::gridPos`: `Floor(1.0*p.x/u), Floor(1.0*p.y/u)` — real division
followed by floor. -/
def gridPos (gridUnitPixel : Int) (p : Point) : Point :=
  ⟨⌊(p.x : ℚ) / (gridUnitPixel : ℚ)⌋, ⌊(p.y : ℚ) / (gridUnitPixel : ℚ)⌋⟩

/-- Axis-aligned rectangle with rational sides (Siv3D `RectF`). -/
structure RectQ where
  x : ℚ
  y : ℚ
  w : ℚ
  h : ℚ
deriving DecidableEq, Repr

/-- `Field::gridRect`: the pixel rectangle of a cell. -/
def gridRect (gridUnitPixel : Int) (p : Point) : RectQ :=
  ⟨(gridUnitPixel : ℚ) * (p.x : ℚ), (gridUnitPixel : ℚ) * (p.y : ℚ),
    (gridUnitPixel : ℚ), (gridUnitPixel : ℚ)⟩

/-- Siv3D `RectF::stretched(s)`: grow by `s` on every side. -/
def stretched (r : RectQ) (s : ℚ) : RectQ :=
  ⟨r.x - s, r.y - s, r.w + s + s, r.h + s + s⟩

/-- A movement segment (Siv3D `Line`): start and end point. -/
structure SegQ where
  a : Vec2
  b : Vec2

/-- The fixed simulation step `1/60`. -/
def dt : ℚ := 1 / 60

/-- The neighbor-offset priority table of `Field::update()`: cardinal
directions (up, left, right, down) first, then the four diagonals. -/
def neighborsMotion : List Point :=
  [⟨0, -1⟩, ⟨-1, 0⟩, ⟨1, 0⟩, ⟨0, 1⟩,
   ⟨-1, -1⟩, ⟨1, -1⟩, ⟨-1, 1⟩, ⟨1, 1⟩]

/-- The reflection-scale table paired with `neighborsMotion`: up/down invert
and dampen `y`, left/right invert and dampen `x`, diagonals dampen both. -/
def reflectDirection (restitution : ℚ) : List Vec2 :=
  [⟨1, -restitution⟩, ⟨-restitution, 1⟩, ⟨-restitution, 1⟩, ⟨1, -restitution⟩,
   ⟨-restitution, -restitution⟩, ⟨-restitution, -restitution⟩,
   ⟨-restitution, -restitution⟩, ⟨-restitution, -restitution⟩]

/-- The collision loop body of `Field::update()` over the remaining neighbor
indices: `if (reflects && 4 <= j) break;` then, when neighbor `j` hits,
multiply the velocity componentwise by `reflectDirection[j]` and set the
reflected flag. -/
def collideAux (restitution : ℚ) (hit : Nat → Bool) :
    List Nat → Vec2 → Bool → Vec2 × Bool
  | [], v, reflects => (v, reflects)
  | j :: rest, v, reflects =>
    if reflects ∧ 4 ≤ j then (v, reflects)
    else if hit j then
      let scale := (reflectDirection restitution).getD j ⟨1, 1⟩
      collideAux restitution hit rest ⟨v.x * scale.x, v.y * scale.y⟩ true
    else
      collideAux restitution hit rest v reflects

/-- The full collision loop `for j = 0..7`. -/
def collide (restitution : ℚ) (hit : Nat → Bool) (v : Vec2) : Vec2 × Bool :=
  collideAux restitution hit (List.range 8) v false

/-- The damping-and-force phase of `Field::update()` for one light: damp by
`0.999`, then exactly one of pointer-seeking, pointer-avoiding (inverse
square, clamped within unit distance), or random drift.  The external mouse
position, key states and the sampled random drift are parameters. -/
def dampAndForce (mousePosF : Vec2) (keySpace mouseM : Bool) (drift : Vec2)
    (lightCenter : Vec2) (v : Vec2) : Vec2 :=
  let v1 := Vec2.scale (999 / 1000) v
  let toMouse := Vec2.sub mousePosF lightCenter
  if keySpace then
    if mouseM then
      Vec2.add v1 (Vec2.scale dt (Vec2.scale (1 / 2) toMouse))
    else if 1 < Vec2.lengthSq toMouse then
      Vec2.add v1 (Vec2.scale dt (Vec2.scale 10000
        (Vec2.scale (1 / Vec2.lengthSq toMouse) (Vec2.scale (-1) toMouse))))
    else
      v1
  else
    Vec2.add v1 (Vec2.scale dt drift)

/-- One light's motion-and-collision step from `Field::update()` (lines
188–251): damping and force, movement segment, the three-part collision
gate, the neighbor collision loop (with the Siv3D segment/rectangle
intersection test abstracted as the parameter `intersects`), and the final
position advance with the possibly-reflected velocity.  Returns the new
center and velocity. -/
def lightStep (wall : Grid2D Bool) (gridUnitPixel : Int)
    (intersects : RectQ → SegQ → Bool) (mousePosF : Vec2)
    (keySpace mouseM : Bool) (drift : Vec2) (pos v0 : Vec2) : Vec2 × Vec2 :=
  let v1 := dampAndForce mousePosF keySpace mouseM drift pos v0
  let nextPos := Vec2.add pos (Vec2.scale dt v1)
  let moveSegment : SegQ := ⟨pos, nextPos⟩
  let gridA := gridPos gridUnitPixel (Vec2.asPoint pos)
  let gridB := gridPos gridUnitPixel (Vec2.asPoint nextPos)
  let v2 :=
    if Grid2D.isValidB wall gridA = true ∧ Grid2D.isValidB wall gridB = true ∧
        gridA ≠ gridB ∧ ¬ isWall wall gridA = true then
      (collide (1 / 2) (fun j =>
        let nb := gridA + neighborsMotion.getD j ⟨0, 0⟩
        Grid2D.isValidB wall nb && isWall wall nb &&
          intersects (stretched (gridRect gridUnitPixel nb) 2) moveSegment) v1).1
    else
      v1
  (Vec2.add pos (Vec2.scale dt v2), v2)

end Field

namespace Field

/-- The neighbor-offset table of `Field::stepLightDiffusion`, in source
order (three rows of the 3×3 ring). -/
def neighbors : List Point :=
  [⟨-1, -1⟩, ⟨0, -1⟩, ⟨1, -1⟩,
   ⟨-1, 0⟩, ⟨1, 0⟩,
   ⟨-1, 1⟩, ⟨0, 1⟩, ⟨1, 1⟩]

/-- The attenuation table paired with `neighbors`: `attenuationAdjacent` at
the four orthogonal offsets, `attenuationDiagonal` at the four diagonals. -/
def attenuations {K : Type} [LinearOrderedField K] (attA attD : K) : List K :=
  [attD, attA, attD,
   attA, attA,
   attD, attA, attD]

/-- The per-cell body of the double loop in `Field::stepLightDiffusion`:
walls are forced to black; otherwise fold over the eight neighbor indices,
skipping a diagonal (indices 0, 2, 5, 7) whose two corresponding orthogonal
neighbors are both walls (an unchecked wall read), taking the channel-wise
running maximum of in-bounds neighbors attenuated by the paired table, and
finally max the cell's own read-side value in. -/
def diffuseCell {K : Type} [LinearOrderedField K] (attA attD : K)
    (wall : Grid2D Bool) (br : Grid2D (ColorF K)) (x y : Int) : ColorF K :=
  if isWall wall ⟨x, y⟩ then ColorF.black
  else
    let maxB := (List.range 8).foldl (fun mb i =>
      if (i == 0 || i == 2 || i == 5 || i == 7)
          && isWall wall ⟨x + (neighbors.getD i ⟨0, 0⟩).x, y⟩
          && isWall wall ⟨x, y + (neighbors.getD i ⟨0, 0⟩).y⟩ then
        mb
      else
        let a := (attenuations attA attD).getD i 0
        let side := neighbors.getD i ⟨0, 0⟩
        let sideCell : Point := ⟨x + side.x, y + side.y⟩
        if Grid2D.isValidB br sideCell then
          let c := Grid2D.getP br ColorF.black sideCell
          ⟨max mb.r (c.r * a), max mb.g (c.g * a), max mb.b (c.b * a)⟩
        else
          mb) ColorF.black
    let own := Grid2D.getP br ColorF.black ⟨x, y⟩
    ⟨max own.r maxB.r, max own.g maxB.g, max own.b maxB.b⟩

/-- The grid-level effect of one `Field::stepLightDiffusion` pass: the write
buffer receives `diffuseCell` at every `(x, y)` with `y <` read height and
`x <` read width. -/
def stepLightDiffusion {K : Type} [LinearOrderedField K] (attA attD : K)
    (wall : Grid2D Bool) (br : Grid2D (ColorF K)) : Grid2D (ColorF K) :=
  (List.range br.length).map (fun y =>
    (List.range (Grid2D.width br)).map (fun x =>
      diffuseCell attA attD wall br (Int.ofNat x) (Int.ofNat y)))

/-- One full `Field::stepLightDiffusion` call on the double buffer: fill the
write half from the read half, then flip. -/
def stepLightDiffusionDB {K : Type} [LinearOrderedField K] (attA attD : K)
    (wall : Grid2D Bool) (db : DoubleBuffer (Grid2D (ColorF K))) :
    DoubleBuffer (Grid2D (ColorF K)) :=
  DoubleBuffer.flip (DoubleBuffer.setWrite db
    (stepLightDiffusion attA attD wall (DoubleBuffer.read db)))

/-- `Field::resetBrightness`: reset the write half to black, flip, reset the
new write half to black. -/
def resetBrightness {K : Type} [LinearOrderedField K]
    (db : DoubleBuffer (Grid2D (ColorF K))) : DoubleBuffer (Grid2D (ColorF K)) :=
  let db1 := DoubleBuffer.setWrite db (Grid2D.reset (DoubleBuffer.write db) ColorF.black)
  let db2 := DoubleBuffer.flip db1
  DoubleBuffer.setWrite db2 (Grid2D.reset (DoubleBuffer.write db2) ColorF.black)

/-- The per-frame seeding of `Field::update()`: `resetBrightness`, then each
light stamps its color into the write half at its grid cell when the cell is
valid in the read half, then one flip before the 30 diffusion sub-steps. -/
def seedFrame {K : Type} [LinearOrderedField K]
    (db : DoubleBuffer (Grid2D (ColorF K))) (stamps : List (Point × ColorF K)) :
    DoubleBuffer (Grid2D (ColorF K)) :=
  let db0 := resetBrightness db
  let db1 := stamps.foldl (fun d sc =>
    if Grid2D.isValidB (DoubleBuffer.read d) sc.1 then
      DoubleBuffer.setWrite d (Grid2D.setP (DoubleBuffer.write d) sc.1 sc.2)
    else
      d) db0
  DoubleBuffer.flip db1

/-- The orthogonal attenuation constant of `stepLightDiffusion`. -/
noncomputable def attenuationAdjacent : ℝ := 9 / 10

/-- The diagonal attenuation constant: `pow(attenuationAdjacent, Sqrt(2.0))`. -/
noncomputable def attenuationDiagonal : ℝ := attenuationAdjacent ^ Real.sqrt 2

end Field

/-! Specification-side description of one diffusion sub-step, written from
the spec's wording: for a non-wall cell, the new brightness is the
channel-wise maximum of the cell's own read-side brightness and, over all 8
neighbor offsets, the neighbor's read-side brightness scaled by the
attenuation for that offset (the orthogonal constant on offsets sharing a
row or column, its √2-power stand-in `attD` on the diagonals); an
out-of-bounds neighbor contributes nothing, and a diagonal neighbor is
skipped exactly when the orthogonal neighbor sharing its row and the one
sharing its column are both walls. -/

namespace DiffusionSpec

variable {K : Type} [LinearOrderedField K]

/-- The eight neighbor offsets as a set (listed in reading order). -/
def specOffsets : List Point :=
  [⟨-1, -1⟩, ⟨0, -1⟩, ⟨1, -1⟩, ⟨-1, 0⟩, ⟨1, 0⟩, ⟨-1, 1⟩, ⟨0, 1⟩, ⟨1, 1⟩]

/-- Attenuation by offset: the orthogonal constant when the offset shares a
row or a column with the cell, the diagonal constant otherwise. -/
def specAttenuation (attA attD : K) (d : Point) : K :=
  if d.x = 0 ∨ d.y = 0 then attA else attD

/-- A diagonal neighbor is skipped exactly when both corresponding
orthogonal neighbors (same row, same column) are walls. -/
def specSkipsDiagonal (wall : Grid2D Bool) (p d : Point) : Prop :=
  d.x ≠ 0 ∧ d.y ≠ 0 ∧
    Field.isWall wall ⟨p.x + d.x, p.y⟩ = true ∧
    Field.isWall wall ⟨p.x, p.y + d.y⟩ = true

instance (wall : Grid2D Bool) (p d : Point) :
    Decidable (specSkipsDiagonal wall p d) := by
  unfold specSkipsDiagonal; infer_instance

/-- The contribution of one offset: nothing when skipped or out of bounds,
else the neighbor's read-side brightness scaled by the offset's
attenuation. -/
def specContrib (attA attD : K) (wall : Grid2D Bool) (br : Grid2D (ColorF K))
    (p d : Point) : Option (ColorF K) :=
  if specSkipsDiagonal wall p d then none
  else if Grid2D.isValidB br (p + d) = true then
    some (ColorF.scale (specAttenuation attA attD d) (Grid2D.getP br ColorF.black (p + d)))
  else
    none

/-- All neighbor contributions of a cell. -/
def specContribs (attA attD : K) (wall : Grid2D Bool) (br : Grid2D (ColorF K))
    (p : Point) : List (ColorF K) :=
  specOffsets.filterMap (fun d => specContrib attA attD wall br p d)

/-- The new brightness of a non-wall cell: channel-wise maximum of the
cell's own read-side brightness and all neighbor contributions. -/
def specNewBrightness (attA attD : K) (wall : Grid2D Bool)
    (br : Grid2D (ColorF K)) (p : Point) : ColorF K :=
  { r := (specContribs attA attD wall br p).foldl (fun m c => max m c.r)
      (Grid2D.getP br ColorF.black p).r
    g := (specContribs attA attD wall br p).foldl (fun m c => max m c.g)
      (Grid2D.getP br ColorF.black p).g
    b := (specContribs attA attD wall br p).foldl (fun m c => max m c.b)
      (Grid2D.getP br ColorF.black p).b }

/-- Every channel of every cell of the grid is non-negative (true of every
brightness buffer the program builds; seeds are colors with channels in
`[0, 1]`). -/
def Nonneg (br : Grid2D (ColorF K)) : Prop :=
  ∀ row ∈ br, ∀ c ∈ row, 0 ≤ c.r ∧ 0 ≤ c.g ∧ 0 ≤ c.b

end DiffusionSpec

namespace Field

/-- A coordinate lies on the outer ring of the wall grid. -/
def onRing (wall : Grid2D Bool) (p : Point) : Prop :=
  p.x = 0 ∨ p.y = 0 ∨ p.x + 1 = (Grid2D.width wall : Int) ∨
    p.y + 1 = (Grid2D.height wall : Int)

instance (wall : Grid2D Bool) (p : Point) : Decidable (onRing wall p) := by
  unfold onRing; infer_instance

/-- Every outer-ring cell of the wall grid is solid. -/
def RingSolid (wall : Grid2D Bool) : Prop :=
  ∀ y : Nat, y < Grid2D.height wall → ∀ x : Nat, x < Grid2D.width wall →
    (x = 0 ∨ y = 0 ∨ x + 1 = Grid2D.width wall ∨ y + 1 = Grid2D.height wall) →
    isWall wall ⟨(x : Int), (y : Int)⟩ = true

instance (wall : Grid2D Bool) : Decidable (RingSolid wall) := by
  unfold RingSolid; infer_instance

end Field

namespace DiffusionSpec

variable {K : Type} [LinearOrderedField K]

/-- Proof device: the contribution of loop index `i` in the source fold of
`diffuseCell`, packaged as an optional value (`none` when the index is a
skipped diagonal or its neighbor cell is out of bounds). -/
def codeContrib (attA attD : K) (wall : Grid2D Bool) (br : Grid2D (ColorF K))
    (x y : Int) (i : Nat) : Option (ColorF K) :=
  if (i == 0 || i == 2 || i == 5 || i == 7)
      && Field.isWall wall ⟨x + (Field.neighbors.getD i ⟨0, 0⟩).x, y⟩
      && Field.isWall wall ⟨x, y + (Field.neighbors.getD i ⟨0, 0⟩).y⟩ then
    none
  else if Grid2D.isValidB br ⟨x + (Field.neighbors.getD i ⟨0, 0⟩).x,
      y + (Field.neighbors.getD i ⟨0, 0⟩).y⟩ then
    some (ColorF.scale ((Field.attenuations attA attD).getD i 0)
      (Grid2D.getP br ColorF.black ⟨x + (Field.neighbors.getD i ⟨0, 0⟩).x,
        y + (Field.neighbors.getD i ⟨0, 0⟩).y⟩))
  else
    none

end DiffusionSpec

/-- Channel-wise pointwise order between two brightness grids (out-of-bounds
reads compare the shared default black). -/
def GridPW {K : Type} [LinearOrderedField K] (g1 g2 : Grid2D (ColorF K)) : Prop :=
  ∀ p : Point,
    (Grid2D.getP g1 ColorF.black p).r ≤ (Grid2D.getP g2 ColorF.black p).r ∧
    (Grid2D.getP g1 ColorF.black p).g ≤ (Grid2D.getP g2 ColorF.black p).g ∧
    (Grid2D.getP g1 ColorF.black p).b ≤ (Grid2D.getP g2 ColorF.black p).b

/-- Every channel read anywhere in the grid is nonnegative. -/
def GridNN {K : Type} [LinearOrderedField K] (g : Grid2D (ColorF K)) : Prop :=
  ∀ p : Point,
    0 ≤ (Grid2D.getP g ColorF.black p).r ∧
    0 ≤ (Grid2D.getP g ColorF.black p).g ∧
    0 ≤ (Grid2D.getP g ColorF.black p).b

/-- The row-length profile of a grid; the bounds behaviour of every access
depends only on it. -/
def Grid2D.shape {α : Type} (g : Grid2D α) : List Nat := g.map List.length

/-- Embedding of an exact rational color into a larger ordered field (used
at `K = ℝ`).  The program's doubles hold these values exactly, and `ℚ → K`
is an order- and ring-embedding, so this is the identity on program
states. -/
def castColor {K : Type} [LinearOrderedField K] (c : ColorF ℚ) : ColorF K :=
  ⟨(c.r : K), (c.g : K), (c.b : K)⟩

/-- Embedding of a rational brightness grid. -/
def castGrid {K : Type} [LinearOrderedField K] (g : Grid2D (ColorF ℚ)) :
    Grid2D (ColorF K) :=
  g.map (fun row => row.map castColor)

/-- Embedding of a rational double buffer. -/
def castDB {K : Type} [LinearOrderedField K] (db : DoubleBuffer (Grid2D (ColorF ℚ))) :
    DoubleBuffer (Grid2D (ColorF K)) :=
  ⟨castGrid db.buffer0, castGrid db.buffer1, db.currentWrite⟩

/-! Concrete scenario for the end-to-end diffusion property: a 10×10 field
whose only walls are the border ring, one light of full color `c5color`
resting at the center cell (pixel center (176, 176) with 32-pixel cells,
grid cell (5, 5)), zero velocity, the frame seeding of `Field::update()`,
and 30 diffusion sub-steps of the real-valued diffusion at the source's
constants 9/10 and `pow(0.9, √2)`.  The final buffer `c5finalR` is pinned
between the two exactly computable rational diffusions with diagonal
attenuation 17/20 and 87/100 (which bracket `pow(0.9, √2)` ≈ 0.8616), since
the sub-step is monotone in the diagonal attenuation. -/

namespace C5

def c5wall : Grid2D Bool := Field.initWalls 10 10

def c5color : ColorF ℚ := ⟨3/10, 1, 3/10⟩

def c5db0 : DoubleBuffer (Grid2D (ColorF ℚ)) :=
  DoubleBuffer.mkInit (List.replicate 10 (List.replicate 10 ColorF.black))

def c5lightCenter : Vec2 := ⟨176, 176⟩

def c5cell : Point := Field.gridPos 32 (Vec2.asPoint c5lightCenter)

def c5seeded : DoubleBuffer (Grid2D (ColorF ℚ)) :=
  Field.seedFrame c5db0 [(c5cell, c5color)]

/-- The read-side brightness of the scenario after the seeding and 30
sub-steps of the program's real-valued diffusion, at the true attenuation
constants: the exact rational seeded state is embedded into `ℝ` and diffused
with `attenuationAdjacent = 9/10` and `attenuationDiagonal = (9/10)^√2`. -/
noncomputable def c5finalR : Grid2D (ColorF ℝ) :=
  DoubleBuffer.read ((Field.stepLightDiffusionDB Field.attenuationAdjacent
    Field.attenuationDiagonal c5wall)^[30] (castDB c5seeded))

/-- Rational lower bound for the diagonal attenuation: 17/20 ≤ (9/10)^√2. -/
def c5dLo : ℚ := 17/20

/-- Rational upper bound for the diagonal attenuation: (9/10)^√2 ≤ 87/100. -/
def c5dHi : ℚ := 87/100

/-- The scenario's diffusion sub-step with the lower diagonal bound. -/
def c5stepLo (g : Grid2D (ColorF ℚ)) : Grid2D (ColorF ℚ) :=
  Field.stepLightDiffusion (9/10) c5dLo c5wall g

/-- The scenario's diffusion sub-step with the upper diagonal bound. -/
def c5stepHi (g : Grid2D (ColorF ℚ)) : Grid2D (ColorF ℚ) :=
  Field.stepLightDiffusion (9/10) c5dHi c5wall g

/-- All 100 cells of the 10×10 grid. -/
def c5allCells : List Point :=
  ((List.range 10).map (fun y => (List.range 10).map (fun x =>
    (⟨(x : Int), (y : Int)⟩ : Point)))).flatten

/-- A cell is open: in bounds and not a wall. -/
def c5open (p : Point) : Bool :=
  Grid2D.isValidB c5wall p && !(Field.isWall c5wall p)

/-- 8-neighbor adjacency. -/
def c5adj (p q : Point) : Bool :=
  decide (p ≠ q) && decide ((p.x - q.x).natAbs ≤ 1) && decide ((p.y - q.y).natAbs ≤ 1)

/-- One expansion step of reachability through open cells. -/
def c5expand (s : List Point) : List Point :=
  c5allCells.filter (fun q => s.contains q || (c5open q && s.any (fun r => c5adj r q)))

/-- The cells connected to the light's cell by a path of open cells (64
expansion steps, at least the number of open cells, so the fixpoint is
reached). -/
def c5reach : List Point := c5expand^[64] [⟨5, 5⟩]

end C5

/-! Concrete scenario refuting unrestricted per-cell monotonicity: a 3×3
field (all ring except the center), a light stamped while buried inside the
wall cell (0, 0) — reachable, since the stamp in `Field::update()` checks
only `isValid`, and a light may sit inside a wall —; the first diffusion
sub-step forces that wall cell back to black, strictly decreasing its red
channel. -/

namespace C6

def c6wall : Grid2D Bool := Field.initWalls 3 3

def c6color : ColorF ℚ := ⟨1, 1/2, 1/4⟩

def c6db0 : DoubleBuffer (Grid2D (ColorF ℚ)) :=
  DoubleBuffer.mkInit (List.replicate 3 (List.replicate 3 ColorF.black))

def c6seeded : DoubleBuffer (Grid2D (ColorF ℚ)) :=
  Field.seedFrame c6db0 [(⟨0, 0⟩, c6color)]

def c6after : DoubleBuffer (Grid2D (ColorF ℚ)) :=
  Field.stepLightDiffusionDB (9/10) (13/15) c6wall c6seeded

end C6

namespace C5

/-! Proof device: the concrete brightness grids of the scenario computed
exactly over the rationals — the seeded read buffer `c5r0`, and the grids
after each of the first four sub-steps of the lower-bound diffusion
(diagonal attenuation 17/20) and of the upper-bound diffusion (87/100).
`c5lo4` and `c5hi4` are fixpoints of their sub-steps, so the remaining 26 of
the 30 sub-steps leave them unchanged. -/

def c5r0 : Grid2D (ColorF ℚ) :=
  [[⟨0, 0, 0⟩, ⟨0, 0, 0⟩, ⟨0, 0, 0⟩, ⟨0, 0, 0⟩, ⟨0, 0, 0⟩, ⟨0, 0, 0⟩, ⟨0, 0, 0⟩, ⟨0, 0, 0⟩, ⟨0, 0, 0⟩, ⟨0, 0, 0⟩],
   [⟨0, 0, 0⟩, ⟨0, 0, 0⟩, ⟨0, 0, 0⟩, ⟨0, 0, 0⟩, ⟨0, 0, 0⟩, ⟨0, 0, 0⟩, ⟨0, 0, 0⟩, ⟨0, 0, 0⟩, ⟨0, 0, 0⟩, ⟨0, 0, 0⟩],
   [⟨0, 0, 0⟩, ⟨0, 0, 0⟩, ⟨0, 0, 0⟩, ⟨0, 0, 0⟩, ⟨0, 0, 0⟩, ⟨0, 0, 0⟩, ⟨0, 0, 0⟩, ⟨0, 0, 0⟩, ⟨0, 0, 0⟩, ⟨0, 0, 0⟩],
   [⟨0, 0, 0⟩, ⟨0, 0, 0⟩, ⟨0, 0, 0⟩, ⟨0, 0, 0⟩, ⟨0, 0, 0⟩, ⟨0, 0, 0⟩, ⟨0, 0, 0⟩, ⟨0, 0, 0⟩, ⟨0, 0, 0⟩, ⟨0, 0, 0⟩],
   [⟨0, 0, 0⟩, ⟨0, 0, 0⟩, ⟨0, 0, 0⟩, ⟨0, 0, 0⟩, ⟨0, 0, 0⟩, ⟨0, 0, 0⟩, ⟨0, 0, 0⟩, ⟨0, 0, 0⟩, ⟨0, 0, 0⟩, ⟨0, 0, 0⟩],
   [⟨0, 0, 0⟩, ⟨0, 0, 0⟩, ⟨0, 0, 0⟩, ⟨0, 0, 0⟩, ⟨0, 0, 0⟩, ⟨3/10, 1, 3/10⟩, ⟨0, 0, 0⟩, ⟨0, 0, 0⟩, ⟨0, 0, 0⟩, ⟨0, 0, 0⟩],
   [⟨0, 0, 0⟩, ⟨0, 0, 0⟩, ⟨0, 0, 0⟩, ⟨0, 0, 0⟩, ⟨0, 0, 0⟩, ⟨0, 0, 0⟩, ⟨0, 0, 0⟩, ⟨0, 0, 0⟩, ⟨0, 0, 0⟩, ⟨0, 0, 0⟩],
   [⟨0, 0, 0⟩, ⟨0, 0, 0⟩, ⟨0, 0, 0⟩, ⟨0, 0, 0⟩, ⟨0, 0, 0⟩, ⟨0, 0, 0⟩, ⟨0, 0, 0⟩, ⟨0, 0, 0⟩, ⟨0, 0, 0⟩, ⟨0, 0, 0⟩],
   [⟨0, 0, 0⟩, ⟨0, 0, 0⟩, ⟨0, 0, 0⟩, ⟨0, 0, 0⟩, ⟨0, 0, 0⟩, ⟨0, 0, 0⟩, ⟨0, 0, 0⟩, ⟨0, 0, 0⟩, ⟨0, 0, 0⟩, ⟨0, 0, 0⟩],
   [⟨0, 0, 0⟩, ⟨0, 0, 0⟩, ⟨0, 0, 0⟩, ⟨0, 0, 0⟩, ⟨0, 0, 0⟩, ⟨0, 0, 0⟩, ⟨0, 0, 0⟩, ⟨0, 0, 0⟩, ⟨0, 0, 0⟩, ⟨0, 0, 0⟩]]

def c5lo1 : Grid2D (ColorF ℚ) :=
  [[⟨0, 0, 0⟩, ⟨0, 0, 0⟩, ⟨0, 0, 0⟩, ⟨0, 0, 0⟩, ⟨0, 0, 0⟩, ⟨0, 0, 0⟩, ⟨0, 0, 0⟩, ⟨0, 0, 0⟩, ⟨0, 0, 0⟩, ⟨0, 0, 0⟩],
   [⟨0, 0, 0⟩, ⟨0, 0, 0⟩, ⟨0, 0, 0⟩, ⟨0, 0, 0⟩, ⟨0, 0, 0⟩, ⟨0, 0, 0⟩, ⟨0, 0, 0⟩, ⟨0, 0, 0⟩, ⟨0, 0, 0⟩, ⟨0, 0, 0⟩],
   [⟨0, 0, 0⟩, ⟨0, 0, 0⟩, ⟨0, 0, 0⟩, ⟨0, 0, 0⟩, ⟨0, 0, 0⟩, ⟨0, 0, 0⟩, ⟨0, 0, 0⟩, ⟨0, 0, 0⟩, ⟨0, 0, 0⟩, ⟨0, 0, 0⟩],
   [⟨0, 0, 0⟩, ⟨0, 0, 0⟩, ⟨0, 0, 0⟩, ⟨0, 0, 0⟩, ⟨0, 0, 0⟩, ⟨0, 0, 0⟩, ⟨0, 0, 0⟩, ⟨0, 0, 0⟩, ⟨0, 0, 0⟩, ⟨0, 0, 0⟩],
   [⟨0, 0, 0⟩, ⟨0, 0, 0⟩, ⟨0, 0, 0⟩, ⟨0, 0, 0⟩, ⟨51/200, 17/20, 51/200⟩, ⟨27/100, 9/10, 27/100⟩, ⟨51/200, 17/20, 51/200⟩, ⟨0, 0, 0⟩, ⟨0, 0, 0⟩, ⟨0, 0, 0⟩],
   [⟨0, 0, 0⟩, ⟨0, 0, 0⟩, ⟨0, 0, 0⟩, ⟨0, 0, 0⟩, ⟨27/100, 9/10, 27/100⟩, ⟨3/10, 1, 3/10⟩, ⟨27/100, 9/10, 27/100⟩, ⟨0, 0, 0⟩, ⟨0, 0, 0⟩, ⟨0, 0, 0⟩],
   [⟨0, 0, 0⟩, ⟨0, 0, 0⟩, ⟨0, 0, 0⟩, ⟨0, 0, 0⟩, ⟨51/200, 17/20, 51/200⟩, ⟨27/100, 9/10, 27/100⟩, ⟨51/200, 17/20, 51/200⟩, ⟨0, 0, 0⟩, ⟨0, 0, 0⟩, ⟨0, 0, 0⟩],
   [⟨0, 0, 0⟩, ⟨0, 0, 0⟩, ⟨0, 0, 0⟩, ⟨0, 0, 0⟩, ⟨0, 0, 0⟩, ⟨0, 0, 0⟩, ⟨0, 0, 0⟩, ⟨0, 0, 0⟩, ⟨0, 0, 0⟩, ⟨0, 0, 0⟩],
   [⟨0, 0, 0⟩, ⟨0, 0, 0⟩, ⟨0, 0, 0⟩, ⟨0, 0, 0⟩, ⟨0, 0, 0⟩, ⟨0, 0, 0⟩, ⟨0, 0, 0⟩, ⟨0, 0, 0⟩, ⟨0, 0, 0⟩, ⟨0, 0, 0⟩],
   [⟨0, 0, 0⟩, ⟨0, 0, 0⟩, ⟨0, 0, 0⟩, ⟨0, 0, 0⟩, ⟨0, 0, 0⟩, ⟨0, 0, 0⟩, ⟨0, 0, 0⟩, ⟨0, 0, 0⟩, ⟨0, 0, 0⟩, ⟨0, 0, 0⟩]]

def c5lo2 : Grid2D (ColorF ℚ) :=
  [[⟨0, 0, 0⟩, ⟨0, 0, 0⟩, ⟨0, 0, 0⟩, ⟨0, 0, 0⟩, ⟨0, 0, 0⟩, ⟨0, 0, 0⟩, ⟨0, 0, 0⟩, ⟨0, 0, 0⟩, ⟨0, 0, 0⟩, ⟨0, 0, 0⟩],
   [⟨0, 0, 0⟩, ⟨0, 0, 0⟩, ⟨0, 0, 0⟩, ⟨0, 0, 0⟩, ⟨0, 0, 0⟩, ⟨0, 0, 0⟩, ⟨0, 0, 0⟩, ⟨0, 0, 0⟩, ⟨0, 0, 0⟩, ⟨0, 0, 0⟩],
   [⟨0, 0, 0⟩, ⟨0, 0, 0⟩, ⟨0, 0, 0⟩, ⟨0, 0, 0⟩, ⟨0, 0, 0⟩, ⟨0, 0, 0⟩, ⟨0, 0, 0⟩, ⟨0, 0, 0⟩, ⟨0, 0, 0⟩, ⟨0, 0, 0⟩],
   [⟨0, 0, 0⟩, ⟨0, 0, 0⟩, ⟨0, 0, 0⟩, ⟨867/4000, 289/400, 867/4000⟩, ⟨459/2000, 153/200, 459/2000⟩, ⟨243/1000, 81/100, 243/1000⟩, ⟨459/2000, 153/200, 459/2000⟩, ⟨867/4000, 289/400, 867/4000⟩, ⟨0, 0, 0⟩, ⟨0, 0, 0⟩],
   [⟨0, 0, 0⟩, ⟨0, 0, 0⟩, ⟨0, 0, 0⟩, ⟨459/2000, 153/200, 459/2000⟩, ⟨51/200, 17/20, 51/200⟩, ⟨27/100, 9/10, 27/100⟩, ⟨51/200, 17/20, 51/200⟩, ⟨459/2000, 153/200, 459/2000⟩, ⟨0, 0, 0⟩, ⟨0, 0, 0⟩],
   [⟨0, 0, 0⟩, ⟨0, 0, 0⟩, ⟨0, 0, 0⟩, ⟨243/1000, 81/100, 243/1000⟩, ⟨27/100, 9/10, 27/100⟩, ⟨3/10, 1, 3/10⟩, ⟨27/100, 9/10, 27/100⟩, ⟨243/1000, 81/100, 243/1000⟩, ⟨0, 0, 0⟩, ⟨0, 0, 0⟩],
   [⟨0, 0, 0⟩, ⟨0, 0, 0⟩, ⟨0, 0, 0⟩, ⟨459/2000, 153/200, 459/2000⟩, ⟨51/200, 17/20, 51/200⟩, ⟨27/100, 9/10, 27/100⟩, ⟨51/200, 17/20, 51/200⟩, ⟨459/2000, 153/200, 459/2000⟩, ⟨0, 0, 0⟩, ⟨0, 0, 0⟩],
   [⟨0, 0, 0⟩, ⟨0, 0, 0⟩, ⟨0, 0, 0⟩, ⟨867/4000, 289/400, 867/4000⟩, ⟨459/2000, 153/200, 459/2000⟩, ⟨243/1000, 81/100, 243/1000⟩, ⟨459/2000, 153/200, 459/2000⟩, ⟨867/4000, 289/400, 867/4000⟩, ⟨0, 0, 0⟩, ⟨0, 0, 0⟩],
   [⟨0, 0, 0⟩, ⟨0, 0, 0⟩, ⟨0, 0, 0⟩, ⟨0, 0, 0⟩, ⟨0, 0, 0⟩, ⟨0, 0, 0⟩, ⟨0, 0, 0⟩, ⟨0, 0, 0⟩, ⟨0, 0, 0⟩, ⟨0, 0, 0⟩],
   [⟨0, 0, 0⟩, ⟨0, 0, 0⟩, ⟨0, 0, 0⟩, ⟨0, 0, 0⟩, ⟨0, 0, 0⟩, ⟨0, 0, 0⟩, ⟨0, 0, 0⟩, ⟨0, 0, 0⟩, ⟨0, 0, 0⟩, ⟨0, 0, 0⟩]]

def c5lo3 : Grid2D (ColorF ℚ) :=
  [[⟨0, 0, 0⟩, ⟨0, 0, 0⟩, ⟨0, 0, 0⟩, ⟨0, 0, 0⟩, ⟨0, 0, 0⟩, ⟨0, 0, 0⟩, ⟨0, 0, 0⟩, ⟨0, 0, 0⟩, ⟨0, 0, 0⟩, ⟨0, 0, 0⟩],
   [⟨0, 0, 0⟩, ⟨0, 0, 0⟩, ⟨0, 0, 0⟩, ⟨0, 0, 0⟩, ⟨0, 0, 0⟩, ⟨0, 0, 0⟩, ⟨0, 0, 0⟩, ⟨0, 0, 0⟩, ⟨0, 0, 0⟩, ⟨0, 0, 0⟩],
   [⟨0, 0, 0⟩, ⟨0, 0, 0⟩, ⟨14739/80000, 4913/8000, 14739/80000⟩, ⟨7803/40000, 2601/4000, 7803/40000⟩, ⟨4131/20000, 1377/2000, 4131/20000⟩, ⟨2187/10000, 729/1000, 2187/10000⟩, ⟨4131/20000, 1377/2000, 4131/20000⟩, ⟨7803/40000, 2601/4000, 7803/40000⟩, ⟨14739/80000, 4913/8000, 14739/80000⟩, ⟨0, 0, 0⟩],
   [⟨0, 0, 0⟩, ⟨0, 0, 0⟩, ⟨7803/40000, 2601/4000, 7803/40000⟩, ⟨867/4000, 289/400, 867/4000⟩, ⟨459/2000, 153/200, 459/2000⟩, ⟨243/1000, 81/100, 243/1000⟩, ⟨459/2000, 153/200, 459/2000⟩, ⟨867/4000, 289/400, 867/4000⟩, ⟨7803/40000, 2601/4000, 7803/40000⟩, ⟨0, 0, 0⟩],
   [⟨0, 0, 0⟩, ⟨0, 0, 0⟩, ⟨4131/20000, 1377/2000, 4131/20000⟩, ⟨459/2000, 153/200, 459/2000⟩, ⟨51/200, 17/20, 51/200⟩, ⟨27/100, 9/10, 27/100⟩, ⟨51/200, 17/20, 51/200⟩, ⟨459/2000, 153/200, 459/2000⟩, ⟨4131/20000, 1377/2000, 4131/20000⟩, ⟨0, 0, 0⟩],
   [⟨0, 0, 0⟩, ⟨0, 0, 0⟩, ⟨2187/10000, 729/1000, 2187/10000⟩, ⟨243/1000, 81/100, 243/1000⟩, ⟨27/100, 9/10, 27/100⟩, ⟨3/10, 1, 3/10⟩, ⟨27/100, 9/10, 27/100⟩, ⟨243/1000, 81/100, 243/1000⟩, ⟨2187/10000, 729/1000, 2187/10000⟩, ⟨0, 0, 0⟩],
   [⟨0, 0, 0⟩, ⟨0, 0, 0⟩, ⟨4131/20000, 1377/2000, 4131/20000⟩, ⟨459/2000, 153/200, 459/2000⟩, ⟨51/200, 17/20, 51/200⟩, ⟨27/100, 9/10, 27/100⟩, ⟨51/200, 17/20, 51/200⟩, ⟨459/2000, 153/200, 459/2000⟩, ⟨4131/20000, 1377/2000, 4131/20000⟩, ⟨0, 0, 0⟩],
   [⟨0, 0, 0⟩, ⟨0, 0, 0⟩, ⟨7803/40000, 2601/4000, 7803/40000⟩, ⟨867/4000, 289/400, 867/4000⟩, ⟨459/2000, 153/200, 459/2000⟩, ⟨243/1000, 81/100, 243/1000⟩, ⟨459/2000, 153/200, 459/2000⟩, ⟨867/4000, 289/400, 867/4000⟩, ⟨7803/40000, 2601/4000, 7803/40000⟩, ⟨0, 0, 0⟩],
   [⟨0, 0, 0⟩, ⟨0, 0, 0⟩, ⟨14739/80000, 4913/8000, 14739/80000⟩, ⟨7803/40000, 2601/4000, 7803/40000⟩, ⟨4131/20000, 1377/2000, 4131/20000⟩, ⟨2187/10000, 729/1000, 2187/10000⟩, ⟨4131/20000, 1377/2000, 4131/20000⟩, ⟨7803/40000, 2601/4000, 7803/40000⟩, ⟨14739/80000, 4913/8000, 14739/80000⟩, ⟨0, 0, 0⟩],
   [⟨0, 0, 0⟩, ⟨0, 0, 0⟩, ⟨0, 0, 0⟩, ⟨0, 0, 0⟩, ⟨0, 0, 0⟩, ⟨0, 0, 0⟩, ⟨0, 0, 0⟩, ⟨0, 0, 0⟩, ⟨0, 0, 0⟩, ⟨0, 0, 0⟩]]

def c5lo4 : Grid2D (ColorF ℚ) :=
  [[⟨0, 0, 0⟩, ⟨0, 0, 0⟩, ⟨0, 0, 0⟩, ⟨0, 0, 0⟩, ⟨0, 0, 0⟩, ⟨0, 0, 0⟩, ⟨0, 0, 0⟩, ⟨0, 0, 0⟩, ⟨0, 0, 0⟩, ⟨0, 0, 0⟩],
   [⟨0, 0, 0⟩, ⟨250563/1600000, 83521/160000, 250563/1600000⟩, ⟨132651/800000, 44217/80000, 132651/800000⟩, ⟨70227/400000, 23409/40000, 70227/400000⟩, ⟨37179/200000, 12393/20000, 37179/200000⟩, ⟨19683/100000, 6561/10000, 19683/100000⟩, ⟨37179/200000, 12393/20000, 37179/200000⟩, ⟨70227/400000, 23409/40000, 70227/400000⟩, ⟨132651/800000, 44217/80000, 132651/800000⟩, ⟨0, 0, 0⟩],
   [⟨0, 0, 0⟩, ⟨132651/800000, 44217/80000, 132651/800000⟩, ⟨14739/80000, 4913/8000, 14739/80000⟩, ⟨7803/40000, 2601/4000, 7803/40000⟩, ⟨4131/20000, 1377/2000, 4131/20000⟩, ⟨2187/10000, 729/1000, 2187/10000⟩, ⟨4131/20000, 1377/2000, 4131/20000⟩, ⟨7803/40000, 2601/4000, 7803/40000⟩, ⟨14739/80000, 4913/8000, 14739/80000⟩, ⟨0, 0, 0⟩],
   [⟨0, 0, 0⟩, ⟨70227/400000, 23409/40000, 70227/400000⟩, ⟨7803/40000, 2601/4000, 7803/40000⟩, ⟨867/4000, 289/400, 867/4000⟩, ⟨459/2000, 153/200, 459/2000⟩, ⟨243/1000, 81/100, 243/1000⟩, ⟨459/2000, 153/200, 459/2000⟩, ⟨867/4000, 289/400, 867/4000⟩, ⟨7803/40000, 2601/4000, 7803/40000⟩, ⟨0, 0, 0⟩],
   [⟨0, 0, 0⟩, ⟨37179/200000, 12393/20000, 37179/200000⟩, ⟨4131/20000, 1377/2000, 4131/20000⟩, ⟨459/2000, 153/200, 459/2000⟩, ⟨51/200, 17/20, 51/200⟩, ⟨27/100, 9/10, 27/100⟩, ⟨51/200, 17/20, 51/200⟩, ⟨459/2000, 153/200, 459/2000⟩, ⟨4131/20000, 1377/2000, 4131/20000⟩, ⟨0, 0, 0⟩],
   [⟨0, 0, 0⟩, ⟨19683/100000, 6561/10000, 19683/100000⟩, ⟨2187/10000, 729/1000, 2187/10000⟩, ⟨243/1000, 81/100, 243/1000⟩, ⟨27/100, 9/10, 27/100⟩, ⟨3/10, 1, 3/10⟩, ⟨27/100, 9/10, 27/100⟩, ⟨243/1000, 81/100, 243/1000⟩, ⟨2187/10000, 729/1000, 2187/10000⟩, ⟨0, 0, 0⟩],
   [⟨0, 0, 0⟩, ⟨37179/200000, 12393/20000, 37179/200000⟩, ⟨4131/20000, 1377/2000, 4131/20000⟩, ⟨459/2000, 153/200, 459/2000⟩, ⟨51/200, 17/20, 51/200⟩, ⟨27/100, 9/10, 27/100⟩, ⟨51/200, 17/20, 51/200⟩, ⟨459/2000, 153/200, 459/2000⟩, ⟨4131/20000, 1377/2000, 4131/20000⟩, ⟨0, 0, 0⟩],
   [⟨0, 0, 0⟩, ⟨70227/400000, 23409/40000, 70227/400000⟩, ⟨7803/40000, 2601/4000, 7803/40000⟩, ⟨867/4000, 289/400, 867/4000⟩, ⟨459/2000, 153/200, 459/2000⟩, ⟨243/1000, 81/100, 243/1000⟩, ⟨459/2000, 153/200, 459/2000⟩, ⟨867/4000, 289/400, 867/4000⟩, ⟨7803/40000, 2601/4000, 7803/40000⟩, ⟨0, 0, 0⟩],
   [⟨0, 0, 0⟩, ⟨132651/800000, 44217/80000, 132651/800000⟩, ⟨14739/80000, 4913/8000, 14739/80000⟩, ⟨7803/40000, 2601/4000, 7803/40000⟩, ⟨4131/20000, 1377/2000, 4131/20000⟩, ⟨2187/10000, 729/1000, 2187/10000⟩, ⟨4131/20000, 1377/2000, 4131/20000⟩, ⟨7803/40000, 2601/4000, 7803/40000⟩, ⟨14739/80000, 4913/8000, 14739/80000⟩, ⟨0, 0, 0⟩],
   [⟨0, 0, 0⟩, ⟨0, 0, 0⟩, ⟨0, 0, 0⟩, ⟨0, 0, 0⟩, ⟨0, 0, 0⟩, ⟨0, 0, 0⟩, ⟨0, 0, 0⟩, ⟨0, 0, 0⟩, ⟨0, 0, 0⟩, ⟨0, 0, 0⟩]]

def c5hi1 : Grid2D (ColorF ℚ) :=
  [[⟨0, 0, 0⟩, ⟨0, 0, 0⟩, ⟨0, 0, 0⟩, ⟨0, 0, 0⟩, ⟨0, 0, 0⟩, ⟨0, 0, 0⟩, ⟨0, 0, 0⟩, ⟨0, 0, 0⟩, ⟨0, 0, 0⟩, ⟨0, 0, 0⟩],
   [⟨0, 0, 0⟩, ⟨0, 0, 0⟩, ⟨0, 0, 0⟩, ⟨0, 0, 0⟩, ⟨0, 0, 0⟩, ⟨0, 0, 0⟩, ⟨0, 0, 0⟩, ⟨0, 0, 0⟩, ⟨0, 0, 0⟩, ⟨0, 0, 0⟩],
   [⟨0, 0, 0⟩, ⟨0, 0, 0⟩, ⟨0, 0, 0⟩, ⟨0, 0, 0⟩, ⟨0, 0, 0⟩, ⟨0, 0, 0⟩, ⟨0, 0, 0⟩, ⟨0, 0, 0⟩, ⟨0, 0, 0⟩, ⟨0, 0, 0⟩],
   [⟨0, 0, 0⟩, ⟨0, 0, 0⟩, ⟨0, 0, 0⟩, ⟨0, 0, 0⟩, ⟨0, 0, 0⟩, ⟨0, 0, 0⟩, ⟨0, 0, 0⟩, ⟨0, 0, 0⟩, ⟨0, 0, 0⟩, ⟨0, 0, 0⟩],
   [⟨0, 0, 0⟩, ⟨0, 0, 0⟩, ⟨0, 0, 0⟩, ⟨0, 0, 0⟩, ⟨261/1000, 87/100, 261/1000⟩, ⟨27/100, 9/10, 27/100⟩, ⟨261/1000, 87/100, 261/1000⟩, ⟨0, 0, 0⟩, ⟨0, 0, 0⟩, ⟨0, 0, 0⟩],
   [⟨0, 0, 0⟩, ⟨0, 0, 0⟩, ⟨0, 0, 0⟩, ⟨0, 0, 0⟩, ⟨27/100, 9/10, 27/100⟩, ⟨3/10, 1, 3/10⟩, ⟨27/100, 9/10, 27/100⟩, ⟨0, 0, 0⟩, ⟨0, 0, 0⟩, ⟨0, 0, 0⟩],
   [⟨0, 0, 0⟩, ⟨0, 0, 0⟩, ⟨0, 0, 0⟩, ⟨0, 0, 0⟩, ⟨261/1000, 87/100, 261/1000⟩, ⟨27/100, 9/10, 27/100⟩, ⟨261/1000, 87/100, 261/1000⟩, ⟨0, 0, 0⟩, ⟨0, 0, 0⟩, ⟨0, 0, 0⟩],
   [⟨0, 0, 0⟩, ⟨0, 0, 0⟩, ⟨0, 0, 0⟩, ⟨0, 0, 0⟩, ⟨0, 0, 0⟩, ⟨0, 0, 0⟩, ⟨0, 0, 0⟩, ⟨0, 0, 0⟩, ⟨0, 0, 0⟩, ⟨0, 0, 0⟩],
   [⟨0, 0, 0⟩, ⟨0, 0, 0⟩, ⟨0, 0, 0⟩, ⟨0, 0, 0⟩, ⟨0, 0, 0⟩, ⟨0, 0, 0⟩, ⟨0, 0, 0⟩, ⟨0, 0, 0⟩, ⟨0, 0, 0⟩, ⟨0, 0, 0⟩],
   [⟨0, 0, 0⟩, ⟨0, 0, 0⟩, ⟨0, 0, 0⟩, ⟨0, 0, 0⟩, ⟨0, 0, 0⟩, ⟨0, 0, 0⟩, ⟨0, 0, 0⟩, ⟨0, 0, 0⟩, ⟨0, 0, 0⟩, ⟨0, 0, 0⟩]]

def c5hi2 : Grid2D (ColorF ℚ) :=
  [[⟨0, 0, 0⟩, ⟨0, 0, 0⟩, ⟨0, 0, 0⟩, ⟨0, 0, 0⟩, ⟨0, 0, 0⟩, ⟨0, 0, 0⟩, ⟨0, 0, 0⟩, ⟨0, 0, 0⟩, ⟨0, 0, 0⟩, ⟨0, 0, 0⟩],
   [⟨0, 0, 0⟩, ⟨0, 0, 0⟩, ⟨0, 0, 0⟩, ⟨0, 0, 0⟩, ⟨0, 0, 0⟩, ⟨0, 0, 0⟩, ⟨0, 0, 0⟩, ⟨0, 0, 0⟩, ⟨0, 0, 0⟩, ⟨0, 0, 0⟩],
   [⟨0, 0, 0⟩, ⟨0, 0, 0⟩, ⟨0, 0, 0⟩, ⟨0, 0, 0⟩, ⟨0, 0, 0⟩, ⟨0, 0, 0⟩, ⟨0, 0, 0⟩, ⟨0, 0, 0⟩, ⟨0, 0, 0⟩, ⟨0, 0, 0⟩],
   [⟨0, 0, 0⟩, ⟨0, 0, 0⟩, ⟨0, 0, 0⟩, ⟨22707/100000, 7569/10000, 22707/100000⟩, ⟨2349/10000, 783/1000, 2349/10000⟩, ⟨243/1000, 81/100, 243/1000⟩, ⟨2349/10000, 783/1000, 2349/10000⟩, ⟨22707/100000, 7569/10000, 22707/100000⟩, ⟨0, 0, 0⟩, ⟨0, 0, 0⟩],
   [⟨0, 0, 0⟩, ⟨0, 0, 0⟩, ⟨0, 0, 0⟩, ⟨2349/10000, 783/1000, 2349/10000⟩, ⟨261/1000, 87/100, 261/1000⟩, ⟨27/100, 9/10, 27/100⟩, ⟨261/1000, 87/100, 261/1000⟩, ⟨2349/10000, 783/1000, 2349/10000⟩, ⟨0, 0, 0⟩, ⟨0, 0, 0⟩],
   [⟨0, 0, 0⟩, ⟨0, 0, 0⟩, ⟨0, 0, 0⟩, ⟨243/1000, 81/100, 243/1000⟩, ⟨27/100, 9/10, 27/100⟩, ⟨3/10, 1, 3/10⟩, ⟨27/100, 9/10, 27/100⟩, ⟨243/1000, 81/100, 243/1000⟩, ⟨0, 0, 0⟩, ⟨0, 0, 0⟩],
   [⟨0, 0, 0⟩, ⟨0, 0, 0⟩, ⟨0, 0, 0⟩, ⟨2349/10000, 783/1000, 2349/10000⟩, ⟨261/1000, 87/100, 261/1000⟩, ⟨27/100, 9/10, 27/100⟩, ⟨261/1000, 87/100, 261/1000⟩, ⟨2349/10000, 783/1000, 2349/10000⟩, ⟨0, 0, 0⟩, ⟨0, 0, 0⟩],
   [⟨0, 0, 0⟩, ⟨0, 0, 0⟩, ⟨0, 0, 0⟩, ⟨22707/100000, 7569/10000, 22707/100000⟩, ⟨2349/10000, 783/1000, 2349/10000⟩, ⟨243/1000, 81/100, 243/1000⟩, ⟨2349/10000, 783/1000, 2349/10000⟩, ⟨22707/100000, 7569/10000, 22707/100000⟩, ⟨0, 0, 0⟩, ⟨0, 0, 0⟩],
   [⟨0, 0, 0⟩, ⟨0, 0, 0⟩, ⟨0, 0, 0⟩, ⟨0, 0, 0⟩, ⟨0, 0, 0⟩, ⟨0, 0, 0⟩, ⟨0, 0, 0⟩, ⟨0, 0, 0⟩, ⟨0, 0, 0⟩, ⟨0, 0, 0⟩],
   [⟨0, 0, 0⟩, ⟨0, 0, 0⟩, ⟨0, 0, 0⟩, ⟨0, 0, 0⟩, ⟨0, 0, 0⟩, ⟨0, 0, 0⟩, ⟨0, 0, 0⟩, ⟨0, 0, 0⟩, ⟨0, 0, 0⟩, ⟨0, 0, 0⟩]]

def c5hi3 : Grid2D (ColorF ℚ) :=
  [[⟨0, 0, 0⟩, ⟨0, 0, 0⟩, ⟨0, 0, 0⟩, ⟨0, 0, 0⟩, ⟨0, 0, 0⟩, ⟨0, 0, 0⟩, ⟨0, 0, 0⟩, ⟨0, 0, 0⟩, ⟨0, 0, 0⟩, ⟨0, 0, 0⟩],
   [⟨0, 0, 0⟩, ⟨0, 0, 0⟩, ⟨0, 0, 0⟩, ⟨0, 0, 0⟩, ⟨0, 0, 0⟩, ⟨0, 0, 0⟩, ⟨0, 0, 0⟩, ⟨0, 0, 0⟩, ⟨0, 0, 0⟩, ⟨0, 0, 0⟩],
   [⟨0, 0, 0⟩, ⟨0, 0, 0⟩, ⟨1975509/10000000, 658503/1000000, 1975509/10000000⟩, ⟨204363/1000000, 68121/100000, 204363/1000000⟩, ⟨21141/100000, 7047/10000, 21141/100000⟩, ⟨2187/10000, 729/1000, 2187/10000⟩, ⟨21141/100000, 7047/10000, 21141/100000⟩, ⟨204363/1000000, 68121/100000, 204363/1000000⟩, ⟨1975509/10000000, 658503/1000000, 1975509/10000000⟩, ⟨0, 0, 0⟩],
   [⟨0, 0, 0⟩, ⟨0, 0, 0⟩, ⟨204363/1000000, 68121/100000, 204363/1000000⟩, ⟨22707/100000, 7569/10000, 22707/100000⟩, ⟨2349/10000, 783/1000, 2349/10000⟩, ⟨243/1000, 81/100, 243/1000⟩, ⟨2349/10000, 783/1000, 2349/10000⟩, ⟨22707/100000, 7569/10000, 22707/100000⟩, ⟨204363/1000000, 68121/100000, 204363/1000000⟩, ⟨0, 0, 0⟩],
   [⟨0, 0, 0⟩, ⟨0, 0, 0⟩, ⟨21141/100000, 7047/10000, 21141/100000⟩, ⟨2349/10000, 783/1000, 2349/10000⟩, ⟨261/1000, 87/100, 261/1000⟩, ⟨27/100, 9/10, 27/100⟩, ⟨261/1000, 87/100, 261/1000⟩, ⟨2349/10000, 783/1000, 2349/10000⟩, ⟨21141/100000, 7047/10000, 21141/100000⟩, ⟨0, 0, 0⟩],
   [⟨0, 0, 0⟩, ⟨0, 0, 0⟩, ⟨2187/10000, 729/1000, 2187/10000⟩, ⟨243/1000, 81/100, 243/1000⟩, ⟨27/100, 9/10, 27/100⟩, ⟨3/10, 1, 3/10⟩, ⟨27/100, 9/10, 27/100⟩, ⟨243/1000, 81/100, 243/1000⟩, ⟨2187/10000, 729/1000, 2187/10000⟩, ⟨0, 0, 0⟩],
   [⟨0, 0, 0⟩, ⟨0, 0, 0⟩, ⟨21141/100000, 7047/10000, 21141/100000⟩, ⟨2349/10000, 783/1000, 2349/10000⟩, ⟨261/1000, 87/100, 261/1000⟩, ⟨27/100, 9/10, 27/100⟩, ⟨261/1000, 87/100, 261/1000⟩, ⟨2349/10000, 783/1000, 2349/10000⟩, ⟨21141/100000, 7047/10000, 21141/100000⟩, ⟨0, 0, 0⟩],
   [⟨0, 0, 0⟩, ⟨0, 0, 0⟩, ⟨204363/1000000, 68121/100000, 204363/1000000⟩, ⟨22707/100000, 7569/10000, 22707/100000⟩, ⟨2349/10000, 783/1000, 2349/10000⟩, ⟨243/1000, 81/100, 243/1000⟩, ⟨2349/10000, 783/1000, 2349/10000⟩, ⟨22707/100000, 7569/10000, 22707/100000⟩, ⟨204363/1000000, 68121/100000, 204363/1000000⟩, ⟨0, 0, 0⟩],
   [⟨0, 0, 0⟩, ⟨0, 0, 0⟩, ⟨1975509/10000000, 658503/1000000, 1975509/10000000⟩, ⟨204363/1000000, 68121/100000, 204363/1000000⟩, ⟨21141/100000, 7047/10000, 21141/100000⟩, ⟨2187/10000, 729/1000, 2187/10000⟩, ⟨21141/100000, 7047/10000, 21141/100000⟩, ⟨204363/1000000, 68121/100000, 204363/1000000⟩, ⟨1975509/10000000, 658503/1000000, 1975509/10000000⟩, ⟨0, 0, 0⟩],
   [⟨0, 0, 0⟩, ⟨0, 0, 0⟩, ⟨0, 0, 0⟩, ⟨0, 0, 0⟩, ⟨0, 0, 0⟩, ⟨0, 0, 0⟩, ⟨0, 0, 0⟩, ⟨0, 0, 0⟩, ⟨0, 0, 0⟩, ⟨0, 0, 0⟩]]

def c5hi4 : Grid2D (ColorF ℚ) :=
  [[⟨0, 0, 0⟩, ⟨0, 0, 0⟩, ⟨0, 0, 0⟩, ⟨0, 0, 0⟩, ⟨0, 0, 0⟩, ⟨0, 0, 0⟩, ⟨0, 0, 0⟩, ⟨0, 0, 0⟩, ⟨0, 0, 0⟩, ⟨0, 0, 0⟩],
   [⟨0, 0, 0⟩, ⟨171869283/1000000000, 57289761/100000000, 171869283/1000000000⟩, ⟨17779581/100000000, 5926527/10000000, 17779581/100000000⟩, ⟨1839267/10000000, 613089/1000000, 1839267/10000000⟩, ⟨190269/1000000, 63423/100000, 190269/1000000⟩, ⟨19683/100000, 6561/10000, 19683/100000⟩, ⟨190269/1000000, 63423/100000, 190269/1000000⟩, ⟨1839267/10000000, 613089/1000000, 1839267/10000000⟩, ⟨17779581/100000000, 5926527/10000000, 17779581/100000000⟩, ⟨0, 0, 0⟩],
   [⟨0, 0, 0⟩, ⟨17779581/100000000, 5926527/10000000, 17779581/100000000⟩, ⟨1975509/10000000, 658503/1000000, 1975509/10000000⟩, ⟨204363/1000000, 68121/100000, 204363/1000000⟩, ⟨21141/100000, 7047/10000, 21141/100000⟩, ⟨2187/10000, 729/1000, 2187/10000⟩, ⟨21141/100000, 7047/10000, 21141/100000⟩, ⟨204363/1000000, 68121/100000, 204363/1000000⟩, ⟨1975509/10000000, 658503/1000000, 1975509/10000000⟩, ⟨0, 0, 0⟩],
   [⟨0, 0, 0⟩, ⟨1839267/10000000, 613089/1000000, 1839267/10000000⟩, ⟨204363/1000000, 68121/100000, 204363/1000000⟩, ⟨22707/100000, 7569/10000, 22707/100000⟩, ⟨2349/10000, 783/1000, 2349/10000⟩, ⟨243/1000, 81/100, 243/1000⟩, ⟨2349/10000, 783/1000, 2349/10000⟩, ⟨22707/100000, 7569/10000, 22707/100000⟩, ⟨204363/1000000, 68121/100000, 204363/1000000⟩, ⟨0, 0, 0⟩],
   [⟨0, 0, 0⟩, ⟨190269/1000000, 63423/100000, 190269/1000000⟩, ⟨21141/100000, 7047/10000, 21141/100000⟩, ⟨2349/10000, 783/1000, 2349/10000⟩, ⟨261/1000, 87/100, 261/1000⟩, ⟨27/100, 9/10, 27/100⟩, ⟨261/1000, 87/100, 261/1000⟩, ⟨2349/10000, 783/1000, 2349/10000⟩, ⟨21141/100000, 7047/10000, 21141/100000⟩, ⟨0, 0, 0⟩],
   [⟨0, 0, 0⟩, ⟨19683/100000, 6561/10000, 19683/100000⟩, ⟨2187/10000, 729/1000, 2187/10000⟩, ⟨243/1000, 81/100, 243/1000⟩, ⟨27/100, 9/10, 27/100⟩, ⟨3/10, 1, 3/10⟩, ⟨27/100, 9/10, 27/100⟩, ⟨243/1000, 81/100, 243/1000⟩, ⟨2187/10000, 729/1000, 2187/10000⟩, ⟨0, 0, 0⟩],
   [⟨0, 0, 0⟩, ⟨190269/1000000, 63423/100000, 190269/1000000⟩, ⟨21141/100000, 7047/10000, 21141/100000⟩, ⟨2349/10000, 783/1000, 2349/10000⟩, ⟨261/1000, 87/100, 261/1000⟩, ⟨27/100, 9/10, 27/100⟩, ⟨261/1000, 87/100, 261/1000⟩, ⟨2349/10000, 783/1000, 2349/10000⟩, ⟨21141/100000, 7047/10000, 21141/100000⟩, ⟨0, 0, 0⟩],
   [⟨0, 0, 0⟩, ⟨1839267/10000000, 613089/1000000, 1839267/10000000⟩, ⟨204363/1000000, 68121/100000, 204363/1000000⟩, ⟨22707/100000, 7569/10000, 22707/100000⟩, ⟨2349/10000, 783/1000, 2349/10000⟩, ⟨243/1000, 81/100, 243/1000⟩, ⟨2349/10000, 783/1000, 2349/10000⟩, ⟨22707/100000, 7569/10000, 22707/100000⟩, ⟨204363/1000000, 68121/100000, 204363/1000000⟩, ⟨0, 0, 0⟩],
   [⟨0, 0, 0⟩, ⟨17779581/100000000, 5926527/10000000, 17779581/100000000⟩, ⟨1975509/10000000, 658503/1000000, 1975509/10000000⟩, ⟨204363/1000000, 68121/100000, 204363/1000000⟩, ⟨21141/100000, 7047/10000, 21141/100000⟩, ⟨2187/10000, 729/1000, 2187/10000⟩, ⟨21141/100000, 7047/10000, 21141/100000⟩, ⟨204363/1000000, 68121/100000, 204363/1000000⟩, ⟨1975509/10000000, 658503/1000000, 1975509/10000000⟩, ⟨0, 0, 0⟩],
   [⟨0, 0, 0⟩, ⟨0, 0, 0⟩, ⟨0, 0, 0⟩, ⟨0, 0, 0⟩, ⟨0, 0, 0⟩, ⟨0, 0, 0⟩, ⟨0, 0, 0⟩, ⟨0, 0, 0⟩, ⟨0, 0, 0⟩, ⟨0, 0, 0⟩]]

end C5

namespace C5

/-- Proof device: the reach set written out — the 64 interior cells of the
10×10 grid.  It is an expansion fixpoint containing the light's cell, and is
reached from the singleton start after 4 expansion steps. -/
def c5reachLit : List Point :=
  [⟨1, 1⟩, ⟨2, 1⟩, ⟨3, 1⟩, ⟨4, 1⟩, ⟨5, 1⟩, ⟨6, 1⟩, ⟨7, 1⟩, ⟨8, 1⟩, ⟨1, 2⟩, ⟨2, 2⟩, ⟨3, 2⟩, ⟨4, 2⟩, ⟨5, 2⟩, ⟨6, 2⟩, ⟨7, 2⟩, ⟨8, 2⟩, ⟨1, 3⟩, ⟨2, 3⟩, ⟨3, 3⟩, ⟨4, 3⟩, ⟨5, 3⟩, ⟨6, 3⟩, ⟨7, 3⟩, ⟨8, 3⟩, ⟨1, 4⟩, ⟨2, 4⟩, ⟨3, 4⟩, ⟨4, 4⟩, ⟨5, 4⟩, ⟨6, 4⟩, ⟨7, 4⟩, ⟨8, 4⟩, ⟨1, 5⟩, ⟨2, 5⟩, ⟨3, 5⟩, ⟨4, 5⟩, ⟨5, 5⟩, ⟨6, 5⟩, ⟨7, 5⟩, ⟨8, 5⟩, ⟨1, 6⟩, ⟨2, 6⟩, ⟨3, 6⟩, ⟨4, 6⟩, ⟨5, 6⟩, ⟨6, 6⟩, ⟨7, 6⟩, ⟨8, 6⟩, ⟨1, 7⟩, ⟨2, 7⟩, ⟨3, 7⟩, ⟨4, 7⟩, ⟨5, 7⟩, ⟨6, 7⟩, ⟨7, 7⟩, ⟨8, 7⟩, ⟨1, 8⟩, ⟨2, 8⟩, ⟨3, 8⟩, ⟨4, 8⟩, ⟨5, 8⟩, ⟨6, 8⟩, ⟨7, 8⟩, ⟨8, 8⟩]

end C5


/-! ## Theorems -/

@[simp] theorem Point.add_def (a b : Point) : a + b = ⟨a.x + b.x, a.y + b.y⟩ := rfl

namespace DoubleBuffer

variable {T : Type}

theorem read_flip_setWrite (d : DoubleBuffer T) (v : T) :
    read (flip (setWrite d v)) = v := by
  obtain ⟨b0, b1, c⟩ := d
  fin_cases c <;> rfl

end DoubleBuffer

namespace Grid2D

variable {α : Type}

theorem getD_row_of_rect {g : Grid2D α} (hrect : Rect g) {n : Nat}
    (hn : n < g.length) : (g.getD n []).length = width g := by
  rw [List.getD_eq_getElem?_getD, List.getElem?_eq_getElem hn]
  exact hrect _ (List.getElem_mem hn)

theorem isValidB_iff {g : Grid2D α} (hrect : Rect g) (p : Point) :
    isValidB g p = true ↔
      0 ≤ p.x ∧ p.x < (width g : Int) ∧ 0 ≤ p.y ∧ p.y < (g.length : Int) := by
  unfold isValidB
  simp only [Bool.and_eq_true, decide_eq_true_eq]
  constructor
  · rintro ⟨⟨⟨hy0, hyl⟩, hx0⟩, hxr⟩
    have hn : p.y.toNat < g.length := by omega
    rw [getD_row_of_rect hrect hn] at hxr
    exact ⟨hx0, hxr, hy0, hyl⟩
  · rintro ⟨hx0, hxw, hy0, hyl⟩
    have hn : p.y.toNat < g.length := by omega
    refine ⟨⟨⟨hy0, hyl⟩, hx0⟩, ?_⟩
    rw [getD_row_of_rect hrect hn]
    exact hxw

end Grid2D

namespace Field

variable {K : Type} [LinearOrderedField K]

theorem step_length (attA attD : K) (wall : Grid2D Bool) (br : Grid2D (ColorF K)) :
    (stepLightDiffusion attA attD wall br).length = br.length := by
  simp [stepLightDiffusion]

theorem step_width (attA attD : K) (wall : Grid2D Bool) (br : Grid2D (ColorF K)) :
    Grid2D.width (stepLightDiffusion attA attD wall br) = Grid2D.width br := by
  cases br with
  | nil => rfl
  | cons row rest =>
    simp [stepLightDiffusion, List.range_succ_eq_map, Grid2D.width]

theorem step_rect (attA attD : K) (wall : Grid2D Bool) (br : Grid2D (ColorF K)) :
    Grid2D.Rect (stepLightDiffusion attA attD wall br) := by
  intro r hr
  rw [step_width]
  simp only [stepLightDiffusion, List.mem_map] at hr
  obtain ⟨y, _, rfl⟩ := hr
  simp

theorem step_getP (attA attD : K) (wall : Grid2D Bool) {br : Grid2D (ColorF K)}
    (hrect : Grid2D.Rect br) {p : Point} (hv : Grid2D.isValidB br p = true) :
    Grid2D.getP (stepLightDiffusion attA attD wall br) ColorF.black p =
      diffuseCell attA attD wall br p.x p.y := by
  obtain ⟨hx0, hxw, hy0, hyl⟩ := (Grid2D.isValidB_iff hrect p).mp hv
  have hyn : p.y.toNat < br.length := by omega
  have hxn : p.x.toNat < Grid2D.width br := by omega
  unfold Grid2D.getP stepLightDiffusion
  have hrow : ((List.range br.length).map (fun y =>
      (List.range (Grid2D.width br)).map (fun x =>
        diffuseCell attA attD wall br (Int.ofNat x) (Int.ofNat y)))).getD p.y.toNat [] =
      (List.range (Grid2D.width br)).map (fun x =>
        diffuseCell attA attD wall br (Int.ofNat x) (Int.ofNat p.y.toNat)) := by
    rw [List.getD_eq_getElem?_getD, List.getElem?_map, List.getElem?_range hyn,
      Option.map_some', Option.getD_some]
  rw [hrow, List.getD_eq_getElem?_getD, List.getElem?_map, List.getElem?_range hxn,
    Option.map_some', Option.getD_some]
  have hxe : Int.ofNat p.x.toNat = p.x := Int.toNat_of_nonneg hx0
  have hye : Int.ofNat p.y.toNat = p.y := Int.toNat_of_nonneg hy0
  rw [hxe, hye]

end Field

namespace DiffusionSpec

variable {K : Type} [LinearOrderedField K]

theorem diffuse_fold_eq (attA attD : K) (wall : Grid2D Bool)
    (br : Grid2D (ColorF K)) (x y : Int) :
    (List.range 8).foldl (fun mb i =>
      if (i == 0 || i == 2 || i == 5 || i == 7)
          && Field.isWall wall ⟨x + (Field.neighbors.getD i ⟨0, 0⟩).x, y⟩
          && Field.isWall wall ⟨x, y + (Field.neighbors.getD i ⟨0, 0⟩).y⟩ then
        mb
      else
        let a := (Field.attenuations attA attD).getD i 0
        let side := Field.neighbors.getD i ⟨0, 0⟩
        let sideCell : Point := ⟨x + side.x, y + side.y⟩
        if Grid2D.isValidB br sideCell then
          let c := Grid2D.getP br ColorF.black sideCell
          ⟨max mb.r (c.r * a), max mb.g (c.g * a), max mb.b (c.b * a)⟩
        else
          mb) ColorF.black =
    ((List.range 8).map (codeContrib attA attD wall br x y)).foldl
      (fun mb o => match o with
        | some c => ⟨max mb.r c.r, max mb.g c.g, max mb.b c.b⟩
        | none => mb) ColorF.black := by
  rw [List.foldl_map]
  refine List.foldl_ext _ _ _ (fun mb i _ => ?_)
  by_cases h1 : ((i == 0 || i == 2 || i == 5 || i == 7)
      && Field.isWall wall ⟨x + (Field.neighbors.getD i ⟨0, 0⟩).x, y⟩
      && Field.isWall wall ⟨x, y + (Field.neighbors.getD i ⟨0, 0⟩).y⟩) = true <;>
    simp only [Bool.and_eq_true, Bool.or_eq_true, beq_iff_eq,
      List.getD_eq_getElem?_getD] at h1
  · simp [codeContrib, h1]
  · by_cases h2 : Grid2D.isValidB br ⟨x + (Field.neighbors.getD i ⟨0, 0⟩).x,
        y + (Field.neighbors.getD i ⟨0, 0⟩).y⟩ = true <;>
      simp only [List.getD_eq_getElem?_getD] at h2
    · simp [codeContrib, h1, h2, ColorF.scale]
    · simp [codeContrib, h1, h2]

theorem optFold_r (l : List (Option (ColorF K))) (a : ColorF K) :
    (l.foldl (fun mb o => match o with
      | some c => (⟨max mb.r c.r, max mb.g c.g, max mb.b c.b⟩ : ColorF K)
      | none => mb) a).r =
    l.foldl (fun m o => match o with
      | some c => max m c.r
      | none => m) a.r := by
  induction l generalizing a with
  | nil => rfl
  | cons o t ih => cases o <;> simp [List.foldl_cons, ih]

theorem optFold_g (l : List (Option (ColorF K))) (a : ColorF K) :
    (l.foldl (fun mb o => match o with
      | some c => (⟨max mb.r c.r, max mb.g c.g, max mb.b c.b⟩ : ColorF K)
      | none => mb) a).g =
    l.foldl (fun m o => match o with
      | some c => max m c.g
      | none => m) a.g := by
  induction l generalizing a with
  | nil => rfl
  | cons o t ih => cases o <;> simp [List.foldl_cons, ih]

theorem optFold_b (l : List (Option (ColorF K))) (a : ColorF K) :
    (l.foldl (fun mb o => match o with
      | some c => (⟨max mb.r c.r, max mb.g c.g, max mb.b c.b⟩ : ColorF K)
      | none => mb) a).b =
    l.foldl (fun m o => match o with
      | some c => max m c.b
      | none => m) a.b := by
  induction l generalizing a with
  | nil => rfl
  | cons o t ih => cases o <;> simp [List.foldl_cons, ih]

theorem optFold_shift (pr : ColorF K → K) (l : List (Option (ColorF K))) (a b : K) :
    l.foldl (fun m o => match o with
      | some c => max m (pr c)
      | none => m) (max a b) =
    max a (l.foldl (fun m o => match o with
      | some c => max m (pr c)
      | none => m) b) := by
  induction l generalizing b with
  | nil => rfl
  | cons o t ih =>
    cases o with
    | none => exact ih b
    | some c =>
      simp only [List.foldl_cons]
      rw [show max (max a b) (pr c) = max a (max b (pr c)) from max_assoc a b (pr c)]
      exact ih _

theorem spec_fold_channel (pr : ColorF K → K) (f : Point → Option (ColorF K))
    (l : List Point) (a : K) :
    (l.filterMap f).foldl (fun m c => max m (pr c)) a =
    l.foldl (fun m dlt => match f dlt with
      | some c => max m (pr c)
      | none => m) a := by
  induction l generalizing a with
  | nil => rfl
  | cons d t ih => cases hfd : f d <;> simp [List.filterMap_cons, hfd, ih]

end DiffusionSpec

namespace DiffusionSpec

variable {K : Type} [LinearOrderedField K]

theorem getP_black_nonneg {br : Grid2D (ColorF K)} (h : Nonneg br) (p : Point) :
    0 ≤ (Grid2D.getP br ColorF.black p).r ∧ 0 ≤ (Grid2D.getP br ColorF.black p).g ∧
      0 ≤ (Grid2D.getP br ColorF.black p).b := by
  unfold Grid2D.getP
  rcases Nat.lt_or_ge p.y.toNat br.length with hy | hy
  · have hrow : br.getD p.y.toNat [] = br[p.y.toNat] := by
      rw [List.getD_eq_getElem?_getD, List.getElem?_eq_getElem hy]
      rfl
    rw [hrow]
    rcases Nat.lt_or_ge p.x.toNat (br[p.y.toNat]).length with hx | hx
    · rw [List.getD_eq_getElem?_getD, List.getElem?_eq_getElem hx, Option.getD_some]
      exact h _ (List.getElem_mem hy) _ (List.getElem_mem hx)
    · rw [List.getD_eq_getElem?_getD, List.getElem?_eq_none (by omega), Option.getD_none]
      simp [ColorF.black]
  · have hrow : br.getD p.y.toNat [] = [] := by
      rw [List.getD_eq_getElem?_getD, List.getElem?_eq_none (by omega), Option.getD_none]
    rw [hrow]
    simp [ColorF.black]

theorem code_eq_spec_contribs (attA attD : K) (wall : Grid2D Bool)
    (br : Grid2D (ColorF K)) (p : Point) :
    (List.range 8).map (codeContrib attA attD wall br p.x p.y) =
      specOffsets.map (specContrib attA attD wall br p) := by
  have h8 : List.range 8 = [0, 1, 2, 3, 4, 5, 6, 7] := rfl
  rw [h8]
  simp only [List.map, specOffsets, List.cons.injEq, and_true]
  refine ⟨?_, ?_, ?_, ?_, ?_, ?_, ?_, ?_⟩ <;>
    simp [codeContrib, specContrib, specSkipsDiagonal, specAttenuation,
      Field.neighbors, Field.attenuations, ColorF.scale]

end DiffusionSpec

namespace DiffusionSpec

variable {K : Type} [LinearOrderedField K]

theorem c1_general (attA attD : K) (wall : Grid2D Bool) {br : Grid2D (ColorF K)}
    (hrect : Grid2D.Rect br) {p : Point} (hv : Grid2D.isValidB br p = true)
    (hw : Field.isWall wall p = false) (hnn : Nonneg br) :
    Grid2D.getP (Field.stepLightDiffusion attA attD wall br) ColorF.black p =
      specNewBrightness attA attD wall br p := by
  rw [Field.step_getP attA attD wall hrect hv]
  have hw2 : Field.isWall wall (⟨p.x, p.y⟩ : Point) = false := hw
  obtain ⟨hr0, hg0, hb0⟩ := getP_black_nonneg hnn p
  unfold Field.diffuseCell
  rw [if_neg (by simp [hw2])]
  simp only [diffuse_fold_eq]
  have hzr : (ColorF.black : ColorF K).r = 0 := rfl
  have hzg : (ColorF.black : ColorF K).g = 0 := rfl
  have hzb : (ColorF.black : ColorF K).b = 0 := rfl
  refine ColorF.ext ?_ ?_ ?_
  · show max (Grid2D.getP br ColorF.black ⟨p.x, p.y⟩).r _ = _
    rw [optFold_r, hzr, ← optFold_shift ColorF.r, max_eq_left hr0]
    show _ = (specContribs attA attD wall br p).foldl (fun m c => max m c.r)
      (Grid2D.getP br ColorF.black p).r
    rw [specContribs, spec_fold_channel ColorF.r, code_eq_spec_contribs, List.foldl_map]
  · show max (Grid2D.getP br ColorF.black ⟨p.x, p.y⟩).g _ = _
    rw [optFold_g, hzg, ← optFold_shift ColorF.g, max_eq_left hg0]
    show _ = (specContribs attA attD wall br p).foldl (fun m c => max m c.g)
      (Grid2D.getP br ColorF.black p).g
    rw [specContribs, spec_fold_channel ColorF.g, code_eq_spec_contribs, List.foldl_map]
  · show max (Grid2D.getP br ColorF.black ⟨p.x, p.y⟩).b _ = _
    rw [optFold_b, hzb, ← optFold_shift ColorF.b, max_eq_left hb0]
    show _ = (specContribs attA attD wall br p).foldl (fun m c => max m c.b)
      (Grid2D.getP br ColorF.black p).b
    rw [specContribs, spec_fold_channel ColorF.b, code_eq_spec_contribs, List.foldl_map]

end DiffusionSpec

/-- C9: for every `DoubleBuffer` state, `read()` and `write()` address the
two distinct stored instances; construction from an initial value makes both
instances equal to it; `flip()` makes the instance `write()` returned before
the flip the one `read()` returns after it, moving neither stored instance;
and two consecutive flips restore the state exactly. -/
theorem c9_double_buffer_contract :
    ∀ (T : Type) (d : DoubleBuffer T) (v0 : T),
      DoubleBuffer.readIndex d ≠ DoubleBuffer.writeIndex d ∧
      DoubleBuffer.read (DoubleBuffer.mkInit v0) = v0 ∧
      DoubleBuffer.write (DoubleBuffer.mkInit v0) = v0 ∧
      DoubleBuffer.read (DoubleBuffer.flip d) = DoubleBuffer.write d ∧
      DoubleBuffer.bufAt (DoubleBuffer.flip d) 0 = DoubleBuffer.bufAt d 0 ∧
      DoubleBuffer.bufAt (DoubleBuffer.flip d) 1 = DoubleBuffer.bufAt d 1 ∧
      DoubleBuffer.flip (DoubleBuffer.flip d) = d := by
  intro T d v0
  obtain ⟨b0, b1, c⟩ := d
  fin_cases c <;> refine ⟨?_, rfl, rfl, rfl, rfl, rfl, rfl⟩ <;>
    simp [DoubleBuffer.readIndex, DoubleBuffer.writeIndex]

/-- C8: `Field` construction fails (the logged-error-and-assert path,
modelled as `none`) exactly when a pixel dimension does not divide evenly by
the cell size; on success the wall grid has width and height equal to the
pixel dimensions divided by the cell size. -/
theorem c8_construction_divisibility (fieldW fieldH u : Nat) (hu : 0 < u)
    (hh : 0 < fieldH) :
    (¬(fieldW % u = 0 ∧ fieldH % u = 0) → Field.construct fieldW fieldH u = none) ∧
    ((fieldW % u = 0 ∧ fieldH % u = 0) →
      ∃ f, Field.construct fieldW fieldH u = some f ∧
        Grid2D.width f.1 = fieldW / u ∧ Grid2D.height f.1 = fieldH / u) := by
  constructor
  · intro hnd
    unfold Field.construct Field.checkInitialValidness
    rw [if_neg]
    simp only [Bool.and_eq_true, beq_iff_eq]
    exact hnd
  · rintro ⟨hw0, hh0⟩
    have hcon : Field.construct fieldW fieldH u =
        some (Field.initWalls (fieldW / u) (fieldH / u),
          DoubleBuffer.mkInit (List.replicate (fieldH / u)
            (List.replicate (fieldW / u) ColorF.black))) := by
      unfold Field.construct Field.checkInitialValidness
      rw [if_pos (by simp [hw0, hh0])]
    refine ⟨_, hcon, ?_, ?_⟩
    · have hhu : 0 < fieldH / u := Nat.div_pos (Nat.le_of_dvd hh (Nat.dvd_of_mod_eq_zero hh0)) hu
      unfold Field.initWalls Grid2D.width
      cases hc : (List.range (fieldH / u)).map (fun y =>
          (List.range (fieldW / u)).map (fun x =>
            if x = 0 || y = 0 || x + 1 = fieldW / u || y + 1 = fieldH / u then
              Field.FieldWall else Field.FieldSpace)) with
      | nil =>
        exfalso
        have := congrArg List.length hc
        simp at this
        omega
      | cons row rest =>
        have hlen : row.length = fieldW / u := by
          have hmem : row ∈ (List.range (fieldH / u)).map (fun y =>
              (List.range (fieldW / u)).map (fun x =>
                if x = 0 || y = 0 || x + 1 = fieldW / u || y + 1 = fieldH / u then
                  Field.FieldWall else Field.FieldSpace)) := by
            rw [hc]; exact List.mem_cons_self _ _
          simp only [List.mem_map] at hmem
          obtain ⟨y, _, rfl⟩ := hmem
          simp
        exact hlen
    · unfold Field.initWalls Grid2D.height
      simp

/-- C7: the collision-reflection step of `Field::update()` can change a
light's velocity only when the segment's start and end cells are both in
bounds, differ, and the start cell is not a wall; when any of these fails,
the velocity entering the position update is exactly the output of the
damping-and-force phase, and the position advances by it. -/
theorem c7_collision_gate (wall : Grid2D Bool) (u : Int)
    (intersects : Field.RectQ → Field.SegQ → Bool) (mousePosF : Vec2)
    (keySpace mouseM : Bool) (drift : Vec2) (pos v0 : Vec2)
    (hgate : ¬(Grid2D.isValidB wall (Field.gridPos u (Vec2.asPoint pos)) = true ∧
        Grid2D.isValidB wall (Field.gridPos u (Vec2.asPoint
          (Vec2.add pos (Vec2.scale Field.dt
            (Field.dampAndForce mousePosF keySpace mouseM drift pos v0))))) = true ∧
        Field.gridPos u (Vec2.asPoint pos) ≠ Field.gridPos u (Vec2.asPoint
          (Vec2.add pos (Vec2.scale Field.dt
            (Field.dampAndForce mousePosF keySpace mouseM drift pos v0)))) ∧
        ¬ Field.isWall wall (Field.gridPos u (Vec2.asPoint pos)) = true)) :
    Field.lightStep wall u intersects mousePosF keySpace mouseM drift pos v0 =
      (Vec2.add pos (Vec2.scale Field.dt
         (Field.dampAndForce mousePosF keySpace mouseM drift pos v0)),
       Field.dampAndForce mousePosF keySpace mouseM drift pos v0) := by
  simp only [Field.lightStep]
  rw [if_neg hgate]

/-- Witness for C7 at a concrete state: a light resting at the center of
cell (1, 1) of a 4×4 bordered field with zero velocity and zero drift does
not cross a cell boundary, so the gate fails and the velocity is passed
through unchanged. -/
theorem c7_collision_gate_witness :
    (¬(Grid2D.isValidB (Field.initWalls 4 4)
          (Field.gridPos 32 (Vec2.asPoint (⟨48, 48⟩ : Vec2))) = true ∧
        Grid2D.isValidB (Field.initWalls 4 4) (Field.gridPos 32 (Vec2.asPoint
          (Vec2.add ⟨48, 48⟩ (Vec2.scale Field.dt
            (Field.dampAndForce ⟨0, 0⟩ false false ⟨0, 0⟩ ⟨48, 48⟩ ⟨0, 0⟩))))) = true ∧
        Field.gridPos 32 (Vec2.asPoint (⟨48, 48⟩ : Vec2)) ≠
          Field.gridPos 32 (Vec2.asPoint
            (Vec2.add ⟨48, 48⟩ (Vec2.scale Field.dt
              (Field.dampAndForce ⟨0, 0⟩ false false ⟨0, 0⟩ ⟨48, 48⟩ ⟨0, 0⟩)))) ∧
        ¬ Field.isWall (Field.initWalls 4 4)
            (Field.gridPos 32 (Vec2.asPoint (⟨48, 48⟩ : Vec2))) = true)) ∧
    Field.lightStep (Field.initWalls 4 4) 32 (fun _ _ => true) ⟨0, 0⟩ false false
        ⟨0, 0⟩ ⟨48, 48⟩ ⟨0, 0⟩ =
      (Vec2.add ⟨48, 48⟩ (Vec2.scale Field.dt
         (Field.dampAndForce ⟨0, 0⟩ false false ⟨0, 0⟩ ⟨48, 48⟩ ⟨0, 0⟩)),
       Field.dampAndForce ⟨0, 0⟩ false false ⟨0, 0⟩ ⟨48, 48⟩ ⟨0, 0⟩) :=
  ⟨by decide, c7_collision_gate (Field.initWalls 4 4) 32 (fun _ _ => true)
    ⟨0, 0⟩ false false ⟨0, 0⟩ ⟨48, 48⟩ ⟨0, 0⟩ (by decide)⟩

/-- C2: in the collision loop of `Field::update()`, the scaling paired with
each neighbor inverts and dampens by the restitution factor exactly the axis
perpendicular to a cardinal neighbor (leaving the other unchanged) and
dampens both axes for a diagonal neighbor; a colliding neighbor applies its
scaling componentwise; and once any cardinal neighbor (the first four
checked) has reflected, no diagonal reflection is applied in that frame —
the loop result equals that of the loop with all diagonal hits masked off. -/
theorem c2_reflection_rules (restitution : ℚ) (hit : Nat → Bool) (v : Vec2) :
    (∀ j : Nat, j < 8 →
      ((j < 4 →
         (((Field.neighborsMotion.getD j ⟨0, 0⟩).x = 0 ∧
            (Field.reflectDirection restitution).getD j ⟨1, 1⟩ =
              ⟨1, -restitution⟩) ∨
          ((Field.neighborsMotion.getD j ⟨0, 0⟩).y = 0 ∧
            (Field.reflectDirection restitution).getD j ⟨1, 1⟩ =
              ⟨-restitution, 1⟩))) ∧
       (4 ≤ j →
         ((Field.neighborsMotion.getD j ⟨0, 0⟩).x ≠ 0 ∧
          (Field.neighborsMotion.getD j ⟨0, 0⟩).y ≠ 0 ∧
          (Field.reflectDirection restitution).getD j ⟨1, 1⟩ =
            ⟨-restitution, -restitution⟩)))) ∧
    (∀ (j : Nat) (rest : List Nat) (w : Vec2) (rf : Bool),
      ¬(rf = true ∧ 4 ≤ j) → hit j = true →
      Field.collideAux restitution hit (j :: rest) w rf =
        Field.collideAux restitution hit rest
          ⟨w.x * ((Field.reflectDirection restitution).getD j ⟨1, 1⟩).x,
           w.y * ((Field.reflectDirection restitution).getD j ⟨1, 1⟩).y⟩ true) ∧
    ((∃ j, j < 4 ∧ hit j = true) →
      Field.collide restitution hit v =
        Field.collide restitution (fun j => hit j && decide (j < 4)) v) := by
  refine ⟨?_, ?_, ?_⟩
  · intro j hj
    interval_cases j <;> constructor <;> intro h <;>
      first
        | exact Or.inl ⟨rfl, rfl⟩
        | exact Or.inr ⟨rfl, rfl⟩
        | exact ⟨by decide, by decide, rfl⟩
        | omega
  · intro j rest w rf hbr hhit
    simp only [Field.collideAux]
    rw [if_neg hbr, if_pos hhit]
  · rintro ⟨j, hj4, hjh⟩
    have h8 : List.range 8 = 0 :: 1 :: 2 :: 3 :: 4 :: 5 :: 6 :: 7 :: [] := rfl
    unfold Field.collide
    rw [h8]
    cases h0 : hit 0 <;> cases h1 : hit 1 <;> cases h2 : hit 2 <;> cases h3 : hit 3 <;>
      (interval_cases j <;> simp_all [Field.collideAux, h0, h1, h2, h3])

/-- Witness for C2: with only the left-cardinal neighbor hitting, the full
loop agrees with the cardinal-masked loop. -/
theorem c2_reflection_rules_witness :
    Field.collide (1/2) (fun j => j == 1) ⟨3, 4⟩ =
      Field.collide (1/2) (fun j => (j == 1) && decide (j < 4)) ⟨3, 4⟩ :=
  (c2_reflection_rules (1/2) (fun j => j == 1) ⟨3, 4⟩).2.2 ⟨1, by decide, by decide⟩

namespace Grid2D

variable {α : Type}

theorem length_setP (g : Grid2D α) (p : Point) (v : α) :
    (setP g p v).length = g.length := by
  simp [setP]

theorem width_setP (g : Grid2D α) (p : Point) (v : α) :
    width (setP g p v) = width g := by
  cases g with
  | nil => rfl
  | cons row rest =>
    unfold setP
    cases hyn : p.y.toNat with
    | zero => simp [width]
    | succ n => simp [width]

theorem getD_setP_row_ne (g : Grid2D α) (p : Point) (v : α) {n : Nat}
    (hne : p.y.toNat ≠ n) : (setP g p v).getD n [] = g.getD n [] := by
  unfold setP
  rw [List.getD_eq_getElem?_getD, List.getElem?_set_ne hne, ← List.getD_eq_getElem?_getD]

theorem getP_setP_ne (g : Grid2D α) (p q : Point) (v d : α)
    (h : p.y.toNat ≠ q.y.toNat ∨ p.x.toNat ≠ q.x.toNat) :
    getP (setP g p v) d q = getP g d q := by
  rcases h with hy | hx
  · unfold getP
    rw [getD_setP_row_ne g p v hy]
  · unfold getP setP
    rcases Nat.lt_or_ge p.y.toNat g.length with hyb | hyb
    · rcases eq_or_ne p.y.toNat q.y.toNat with hy | hy
      · have hrow : (List.set g p.y.toNat
            ((g.getD p.y.toNat []).set p.x.toNat v)).getD q.y.toNat [] =
            (g.getD p.y.toNat []).set p.x.toNat v := by
          rw [← hy, List.getD_eq_getElem?_getD, List.getElem?_set_self hyb,
            Option.getD_some]
        rw [hrow, List.getD_eq_getElem?_getD, List.getElem?_set_ne hx,
          ← List.getD_eq_getElem?_getD, hy]
      · have hrow : (List.set g p.y.toNat
            ((g.getD p.y.toNat []).set p.x.toNat v)).getD q.y.toNat [] =
            g.getD q.y.toNat [] := by
          rw [List.getD_eq_getElem?_getD, List.getElem?_set_ne hy,
            ← List.getD_eq_getElem?_getD]
        rw [hrow]
    · rw [List.set_eq_of_length_le (by omega)]

theorem getP_setP_self (g : Grid2D α) (p : Point) (v d : α)
    (hv : isValidB g p = true) : getP (setP g p v) d p = v := by
  simp only [isValidB, Bool.and_eq_true, decide_eq_true_eq] at hv
  obtain ⟨⟨⟨hy0, hyl⟩, hx0⟩, hxr⟩ := hv
  have hyn : p.y.toNat < g.length := by omega
  have hxn : p.x.toNat < (g.getD p.y.toNat []).length := by omega
  unfold getP setP
  have hrow : (List.set g p.y.toNat
      ((g.getD p.y.toNat []).set p.x.toNat v)).getD p.y.toNat [] =
      (g.getD p.y.toNat []).set p.x.toNat v := by
    rw [List.getD_eq_getElem?_getD, List.getElem?_set_self hyn, Option.getD_some]
  rw [hrow, List.getD_eq_getElem?_getD, List.getElem?_set_self hxn, Option.getD_some]

end Grid2D

namespace Field

theorem initWalls_isWall (w h x y : Nat) (hx : x < w) (hy : y < h) :
    isWall (initWalls w h) ⟨(x : Int), (y : Int)⟩ = true ↔
      (x = 0 ∨ y = 0 ∨ x + 1 = w ∨ y + 1 = h) := by
  unfold isWall Grid2D.getP initWalls
  have htx : ((x : Int)).toNat = x := by omega
  have hty : ((y : Int)).toNat = y := by omega
  rw [htx, hty]
  have hrow : ((List.range h).map (fun y =>
      (List.range w).map (fun x =>
        if x = 0 || y = 0 || x + 1 = w || y + 1 = h then FieldWall
        else FieldSpace))).getD y [] =
      (List.range w).map (fun x =>
        if x = 0 || y = 0 || x + 1 = w || y + 1 = h then FieldWall
        else FieldSpace) := by
    rw [List.getD_eq_getElem?_getD, List.getElem?_map, List.getElem?_range hy,
      Option.map_some', Option.getD_some]
  rw [hrow]
  have hcell : ((List.range w).map (fun x =>
      if x = 0 || y = 0 || x + 1 = w || y + 1 = h then FieldWall
      else FieldSpace)).getD x FieldSpace =
      (if x = 0 || y = 0 || x + 1 = w || y + 1 = h then FieldWall
       else FieldSpace) := by
    rw [List.getD_eq_getElem?_getD, List.getElem?_map, List.getElem?_range hx,
      Option.map_some', Option.getD_some]
  rw [hcell]
  by_cases hb : x = 0 ∨ y = 0 ∨ x + 1 = w ∨ y + 1 = h
  · simp only [hb, iff_true]
    have : (x = 0 || y = 0 || x + 1 = w || y + 1 = h) = true := by
      simp only [Bool.or_eq_true, decide_eq_true_eq]
      tauto
    rw [if_pos this]
    rfl
  · simp only [hb, iff_false]
    have : ¬((x = 0 || y = 0 || x + 1 = w || y + 1 = h) = true) := by
      simp only [Bool.or_eq_true, decide_eq_true_eq]
      tauto
    rw [if_neg this]
    decide

theorem ringSolid_setP_wall {wall : Grid2D Bool} (hring : RingSolid wall)
    {q : Point} (hv : Grid2D.isValidB wall q = true) :
    RingSolid (Grid2D.setP wall q FieldWall) := by
  intro y hy x hx hc
  rw [Grid2D.height, Grid2D.length_setP] at hy
  rw [Grid2D.width_setP] at hx
  rw [Grid2D.height, Grid2D.length_setP, Grid2D.width_setP] at hc
  unfold isWall
  by_cases hq : q.y.toNat = ((y : Int)).toNat ∧ q.x.toNat = ((x : Int)).toNat
  · have hqp : (⟨(x : Int), (y : Int)⟩ : Point) = q := by
      simp only [Grid2D.isValidB, Bool.and_eq_true, decide_eq_true_eq] at hv
      obtain ⟨⟨⟨hy0, _⟩, hx0⟩, _⟩ := hv
      obtain ⟨h1, h2⟩ := hq
      have : q.y = (y : Int) := by omega
      have : q.x = (x : Int) := by omega
      cases q
      simp_all
    rw [← hqp] at hv ⊢
    rw [Grid2D.getP_setP_self wall _ _ _ hv]
    rfl
  · rw [Grid2D.getP_setP_ne wall _ _ _ _ (by tauto)]
    exact hring y hy x hx hc

theorem ringSolid_setP_offring {wall : Grid2D Bool} (hring : RingSolid wall)
    {q : Point} (hv : Grid2D.isValidB wall q = true)
    (hoff : ¬ onRing wall q) (v : Bool) :
    RingSolid (Grid2D.setP wall q v) := by
  intro y hy x hx hc
  rw [Grid2D.height, Grid2D.length_setP] at hy
  rw [Grid2D.width_setP] at hx
  rw [Grid2D.height, Grid2D.length_setP, Grid2D.width_setP] at hc
  by_cases hq : q.y.toNat = ((y : Int)).toNat ∧ q.x.toNat = ((x : Int)).toNat
  · exfalso
    simp only [Grid2D.isValidB, Bool.and_eq_true, decide_eq_true_eq] at hv
    obtain ⟨⟨⟨hy0, _⟩, hx0⟩, _⟩ := hv
    obtain ⟨h1, h2⟩ := hq
    apply hoff
    unfold onRing Grid2D.height
    omega
  · unfold isWall
    rw [Grid2D.getP_setP_ne wall _ _ _ _ (by tauto)]
    exact hring y hy x hx hc

theorem edit_preserves_ring (wall : Grid2D Bool) (u : Int) (mouse : Point)
    (pressL pressR : Bool) (hring : RingSolid wall)
    (hsafe : ¬ onRing wall (mouseGridPos u mouse) ∨ pressR = false) :
    RingSolid (applyWallEdit wall u mouse pressL pressR) := by
  unfold applyWallEdit
  by_cases hv : Grid2D.isValidB wall (mouseGridPos u mouse) = true
  · rw [if_pos hv]
    cases pressR with
    | false =>
      cases pressL with
      | false => simpa using hring
      | true => simpa using ringSolid_setP_wall hring hv
    | true =>
      have hoff : ¬ onRing wall (mouseGridPos u mouse) := by
        rcases hsafe with h | h
        · exact h
        · cases h
      cases pressL with
      | false => simpa using ringSolid_setP_offring hring hv hoff FieldSpace
      | true =>
        simp only [if_true, if_false, Bool.true_eq_false]
        have hv2 : Grid2D.isValidB (Grid2D.setP wall (mouseGridPos u mouse)
            FieldWall) (mouseGridPos u mouse) = true := by
          unfold Grid2D.isValidB at hv ⊢
          simp only [Bool.and_eq_true, decide_eq_true_eq] at hv ⊢
          obtain ⟨⟨⟨h1, h2⟩, h3⟩, h4⟩ := hv
          refine ⟨⟨⟨h1, ?_⟩, h3⟩, ?_⟩
          · rw [Grid2D.length_setP]; exact h2
          · unfold Grid2D.setP
            rcases Nat.lt_or_ge (mouseGridPos u mouse).y.toNat wall.length with hb | hb
            · have : (List.set wall (mouseGridPos u mouse).y.toNat
                  ((wall.getD (mouseGridPos u mouse).y.toNat []).set
                    (mouseGridPos u mouse).x.toNat FieldWall)).getD
                  (mouseGridPos u mouse).y.toNat [] =
                  (wall.getD (mouseGridPos u mouse).y.toNat []).set
                    (mouseGridPos u mouse).x.toNat FieldWall := by
                rw [List.getD_eq_getElem?_getD, List.getElem?_set_self hb,
                  Option.getD_some]
              rw [this, List.length_set]
              exact h4
            · omega
        have hoff2 : ¬ onRing (Grid2D.setP wall (mouseGridPos u mouse) FieldWall)
            (mouseGridPos u mouse) := by
          unfold onRing at hoff ⊢
          rw [Grid2D.width_setP, Grid2D.height, Grid2D.length_setP]
          exact hoff
        exact ringSolid_setP_offring (ringSolid_setP_wall hring hv) hv2 hoff2 FieldSpace
  · rw [if_neg hv]
    exact hring

end Field

/-- C3 counterexample: a right-click wall-erase input whose cursor maps to
the outer-ring cell (0, 0) passes the `isValid` guard and opens that ring
cell, so an outer-ring cell does not remain solid under the per-frame edit,
and the edit is not restricted to interior cells. -/
theorem c3_counterexample :
    Field.isWall (Field.initWalls 4 4) ⟨0, 0⟩ = true ∧
    Field.isWall (Field.applyWallEdit (Field.initWalls 4 4) 32 ⟨0, 0⟩ false true)
      ⟨0, 0⟩ = false := by decide

/-- C3 amended: immediately after construction a cell of the wall grid is
solid exactly when it lies on the outer ring (so the interior starts open),
for every grid size; and the per-frame wall edit — which can target any
valid cell, including the ring — preserves ring solidity whenever the
targeted cell is not a ring cell or the erase button is not pressed. -/
theorem c3_amended_border_ring :
    (∀ w h x y : Nat, x < w → y < h →
      (Field.isWall (Field.initWalls w h) ⟨(x : Int), (y : Int)⟩ = true ↔
        (x = 0 ∨ y = 0 ∨ x + 1 = w ∨ y + 1 = h))) ∧
    (∀ (wall : Grid2D Bool) (u : Int) (mouse : Point) (pressL pressR : Bool),
      Field.RingSolid wall →
      (¬ Field.onRing wall (Field.mouseGridPos u mouse) ∨ pressR = false) →
      Field.RingSolid (Field.applyWallEdit wall u mouse pressL pressR)) :=
  ⟨fun w h x y hx hy => Field.initWalls_isWall w h x y hx hy,
   fun wall u mouse pressL pressR hring hsafe =>
     Field.edit_preserves_ring wall u mouse pressL pressR hring hsafe⟩

/-- Witness for the amended C3 on a 4×4 grid: the left-edge cell (0, 2) is
built solid, and a paint/erase edit aimed at the interior cell (1, 1)
preserves ring solidity. -/
theorem c3_amended_border_ring_witness :
    (Field.isWall (Field.initWalls 4 4) ⟨((0 : Nat) : Int), ((2 : Nat) : Int)⟩ = true ↔
      ((0 : Nat) = 0 ∨ (2 : Nat) = 0 ∨ 0 + 1 = 4 ∨ 2 + 1 = 4)) ∧
    Field.RingSolid (Field.applyWallEdit (Field.initWalls 4 4) 32 ⟨40, 40⟩ true true) :=
  ⟨c3_amended_border_ring.1 4 4 0 2 (by decide) (by decide),
   c3_amended_border_ring.2 (Field.initWalls 4 4) 32 ⟨40, 40⟩ true true
     (by decide) (Or.inl (by decide))⟩

namespace Field

theorem interior_of_open_cell {wall : Grid2D Bool} (hrect : Grid2D.Rect wall)
    (hring : RingSolid wall) {p : Point} (hv : Grid2D.isValidB wall p = true)
    (hnw : isWall wall p = false) :
    1 ≤ p.x ∧ p.x + 2 ≤ (Grid2D.width wall : Int) ∧
      1 ≤ p.y ∧ p.y + 2 ≤ (wall.length : Int) := by
  obtain ⟨hx0, hxw, hy0, hyl⟩ := (Grid2D.isValidB_iff hrect p).mp hv
  have hh : Grid2D.height wall = wall.length := rfl
  have hcases : p.x.toNat = 0 ∨ p.y.toNat = 0 ∨
      p.x.toNat + 1 = Grid2D.width wall ∨ p.y.toNat + 1 = Grid2D.height wall ∨
      (1 ≤ p.x ∧ p.x + 2 ≤ (Grid2D.width wall : Int) ∧
        1 ≤ p.y ∧ p.y + 2 ≤ (wall.length : Int)) := by
    rw [hh]
    omega
  have hxx : ((p.x.toNat : Int)) = p.x := by omega
  have hyy : ((p.y.toNat : Int)) = p.y := by omega
  have hpp : (⟨(p.x.toNat : Int), (p.y.toNat : Int)⟩ : Point) = p := by
    rw [hxx, hyy]
  have hby : p.y.toNat < Grid2D.height wall := by rw [hh]; omega
  have hbx : p.x.toNat < Grid2D.width wall := by omega
  rcases hcases with hc | hc | hc | hc | hc
  · have := hring p.y.toNat hby p.x.toNat hbx (Or.inl hc)
    rw [hpp] at this
    rw [this] at hnw
    cases hnw
  · have := hring p.y.toNat hby p.x.toNat hbx (Or.inr (Or.inl hc))
    rw [hpp] at this
    rw [this] at hnw
    cases hnw
  · have := hring p.y.toNat hby p.x.toNat hbx (Or.inr (Or.inr (Or.inl hc)))
    rw [hpp] at this
    rw [this] at hnw
    cases hnw
  · have := hring p.y.toNat hby p.x.toNat hbx (Or.inr (Or.inr (Or.inr hc)))
    rw [hpp] at this
    rw [this] at hnw
    cases hnw
  · exact hc

end Field

/-- C10: when every outer-ring cell is a wall, the two unchecked wall-grid
reads of the diagonal-corner occlusion check — cells (x+dx, y) and
(x, y+dy) for each diagonal offset (dx, dy) — are within grid bounds at
every in-bounds non-wall cell (the only cells that reach the neighbor
loop); no check inside the sub-step itself establishes this. -/
theorem c10_corner_check_in_bounds (wall : Grid2D Bool)
    (hrect : Grid2D.Rect wall) (hring : Field.RingSolid wall) (p : Point)
    (hv : Grid2D.isValidB wall p = true) (hnw : Field.isWall wall p = false) :
    ∀ i ∈ [0, 2, 5, 7],
      Grid2D.isValidB wall ⟨p.x + (Field.neighbors.getD i ⟨0, 0⟩).x, p.y⟩ = true ∧
      Grid2D.isValidB wall ⟨p.x, p.y + (Field.neighbors.getD i ⟨0, 0⟩).y⟩ = true := by
  obtain ⟨h1, h2, h3, h4⟩ := Field.interior_of_open_cell hrect hring hv hnw
  intro i hi
  have hmem : i = 0 ∨ i = 2 ∨ i = 5 ∨ i = 7 := by
    simpa using hi
  rcases hmem with rfl | rfl | rfl | rfl <;>
    refine ⟨?_, ?_⟩ <;>
    · rw [Grid2D.isValidB_iff hrect]
      dsimp [Field.neighbors]
      refine ⟨by omega, by omega, by omega, by omega⟩

namespace Field

variable {K : Type} [LinearOrderedField K]

theorem read_stepDB (attA attD : K) (wall : Grid2D Bool)
    (db : DoubleBuffer (Grid2D (ColorF K))) :
    DoubleBuffer.read (stepLightDiffusionDB attA attD wall db) =
      stepLightDiffusion attA attD wall (DoubleBuffer.read db) := by
  unfold stepLightDiffusionDB
  rw [DoubleBuffer.read_flip_setWrite]

theorem read_iterate_stepDB (attA attD : K) (wall : Grid2D Bool) (n : Nat)
    (db : DoubleBuffer (Grid2D (ColorF K))) :
    DoubleBuffer.read ((stepLightDiffusionDB attA attD wall)^[n] db) =
      (stepLightDiffusion attA attD wall)^[n] (DoubleBuffer.read db) := by
  induction n generalizing db with
  | zero => rfl
  | succ n ih =>
    rw [Function.iterate_succ_apply, Function.iterate_succ_apply, ih, read_stepDB]

end Field

namespace C5

theorem c5_read_seeded : DoubleBuffer.read c5seeded = c5r0 := by decide

theorem c5_lo_step1 : c5stepLo c5r0 = c5lo1 := by decide

theorem c5_lo_step2 : c5stepLo c5lo1 = c5lo2 := by decide

theorem c5_lo_step3 : c5stepLo c5lo2 = c5lo3 := by decide

theorem c5_lo_step4 : c5stepLo c5lo3 = c5lo4 := by decide

theorem c5_lo_fix : c5stepLo c5lo4 = c5lo4 := by decide

theorem c5_lo_final : c5stepLo^[30] c5r0 = c5lo4 := by
  rw [show (30 : Nat) = 26 + 4 from rfl, Function.iterate_add_apply]
  have h4 : c5stepLo^[4] c5r0 = c5lo4 := by
    rw [show (4 : Nat) = 3 + 1 from rfl, Function.iterate_succ_apply,
      show (3 : Nat) = 2 + 1 from rfl, Function.iterate_succ_apply,
      show (2 : Nat) = 1 + 1 from rfl, Function.iterate_succ_apply,
      Function.iterate_one, c5_lo_step1, c5_lo_step2, c5_lo_step3, c5_lo_step4]
  rw [h4, Function.iterate_fixed c5_lo_fix]

theorem c5_hi_step1 : c5stepHi c5r0 = c5hi1 := by decide

theorem c5_hi_step2 : c5stepHi c5hi1 = c5hi2 := by decide

theorem c5_hi_step3 : c5stepHi c5hi2 = c5hi3 := by decide

theorem c5_hi_step4 : c5stepHi c5hi3 = c5hi4 := by decide

theorem c5_hi_fix : c5stepHi c5hi4 = c5hi4 := by decide

theorem c5_hi_final : c5stepHi^[30] c5r0 = c5hi4 := by
  rw [show (30 : Nat) = 26 + 4 from rfl, Function.iterate_add_apply]
  have h4 : c5stepHi^[4] c5r0 = c5hi4 := by
    rw [show (4 : Nat) = 3 + 1 from rfl, Function.iterate_succ_apply,
      show (3 : Nat) = 2 + 1 from rfl, Function.iterate_succ_apply,
      show (2 : Nat) = 1 + 1 from rfl, Function.iterate_succ_apply,
      Function.iterate_one, c5_hi_step1, c5_hi_step2, c5_hi_step3, c5_hi_step4]
  rw [h4, Function.iterate_fixed c5_hi_fix]

theorem c5_reach4 : c5expand^[4] [(⟨5, 5⟩ : Point)] = c5reachLit := by decide

theorem c5_reach_fix : c5expand c5reachLit = c5reachLit := by decide

theorem c5_reach_eq : c5reach = c5reachLit := by
  unfold c5reach
  rw [show (64 : Nat) = 60 + 4 from rfl, Function.iterate_add_apply, c5_reach4,
    Function.iterate_fixed c5_reach_fix]

end C5

/-- C4: at the end of every diffusion sub-step, after its buffer flip, every
wall cell of the read-side buffer holds the darkest value, whatever either
buffer half held before the sub-step. -/
theorem c4_wall_cells_black {K : Type} [LinearOrderedField K] (attA attD : K)
    (wall : Grid2D Bool) (db : DoubleBuffer (Grid2D (ColorF K))) (p : Point)
    (hrect : Grid2D.Rect (DoubleBuffer.read db))
    (hv : Grid2D.isValidB (DoubleBuffer.read db) p = true)
    (hw : Field.isWall wall p = true) :
    Grid2D.getP (DoubleBuffer.read (Field.stepLightDiffusionDB attA attD wall db))
      ColorF.black p = ColorF.black := by
  rw [Field.read_stepDB, Field.step_getP attA attD wall hrect hv]
  have hw2 : Field.isWall wall (⟨p.x, p.y⟩ : Point) = true := hw
  unfold Field.diffuseCell
  rw [if_pos hw2]

/-- Witness for C4: a 1×1 all-wall field whose read half holds full white at
the wall cell (0, 0) before the sub-step; after the sub-step and flip the
read side there is black. -/
theorem c4_wall_cells_black_witness :
    (Grid2D.Rect (DoubleBuffer.read
        (⟨[[ColorF.black]], [[(⟨1, 1, 1⟩ : ColorF ℚ)]], 0⟩ :
          DoubleBuffer (Grid2D (ColorF ℚ)))) ∧
      Grid2D.isValidB (DoubleBuffer.read
        (⟨[[ColorF.black]], [[(⟨1, 1, 1⟩ : ColorF ℚ)]], 0⟩ :
          DoubleBuffer (Grid2D (ColorF ℚ)))) ⟨0, 0⟩ = true ∧
      Field.isWall (Field.initWalls 1 1) ⟨0, 0⟩ = true) ∧
    Grid2D.getP (DoubleBuffer.read (Field.stepLightDiffusionDB (9/10 : ℚ) (13/15)
        (Field.initWalls 1 1)
        ⟨[[ColorF.black]], [[(⟨1, 1, 1⟩ : ColorF ℚ)]], 0⟩))
      ColorF.black ⟨0, 0⟩ = ColorF.black :=
  ⟨⟨by decide, by decide, by decide⟩,
   c4_wall_cells_black (9/10) (13/15) (Field.initWalls 1 1)
     ⟨[[ColorF.black]], [[(⟨1, 1, 1⟩ : ColorF ℚ)]], 0⟩ ⟨0, 0⟩
     (by decide) (by decide) (by decide)⟩

/-- C1: in a diffusion sub-step over a rectangular, channel-wise nonnegative
read buffer, the write-side value of every in-bounds non-wall cell is the
channel-wise maximum of the cell's own read-side brightness and, over the 8
neighbor offsets, the neighbor's read-side brightness attenuated by the
constant 9/10 on the orthogonal offsets and by that constant raised to the
power √2 on the diagonals, where an out-of-bounds neighbor contributes
nothing and a diagonal neighbor is skipped exactly when both of its
corresponding orthogonal neighbors (same row, same column) are walls. -/
theorem c1_diffusion_substep_formula (wall : Grid2D Bool) (br : Grid2D (ColorF ℝ))
    (p : Point) (hrect : Grid2D.Rect br) (hv : Grid2D.isValidB br p = true)
    (hw : Field.isWall wall p = false) (hnn : DiffusionSpec.Nonneg br) :
    Grid2D.getP (Field.stepLightDiffusion Field.attenuationAdjacent
        Field.attenuationDiagonal wall br) ColorF.black p =
      DiffusionSpec.specNewBrightness Field.attenuationAdjacent
        (Field.attenuationAdjacent ^ Real.sqrt 2) wall br p :=
  DiffusionSpec.c1_general Field.attenuationAdjacent Field.attenuationDiagonal
    wall hrect hv hw hnn

/-- Witness for C1: the all-black 3×3 buffer over a border-walled 3×3 field
at the interior cell (1, 1). -/
theorem c1_diffusion_substep_formula_witness :
    (Grid2D.Rect (List.replicate 3 (List.replicate 3 ((ColorF.black : ColorF ℝ)))) ∧
      Grid2D.isValidB (List.replicate 3 (List.replicate 3 ((ColorF.black : ColorF ℝ))))
        ⟨1, 1⟩ = true ∧
      Field.isWall (Field.initWalls 3 3) ⟨1, 1⟩ = false ∧
      DiffusionSpec.Nonneg (List.replicate 3 (List.replicate 3 ((ColorF.black : ColorF ℝ))))) ∧
    Grid2D.getP (Field.stepLightDiffusion Field.attenuationAdjacent
        Field.attenuationDiagonal (Field.initWalls 3 3)
        (List.replicate 3 (List.replicate 3 ((ColorF.black : ColorF ℝ)))))
      ColorF.black ⟨1, 1⟩ =
      DiffusionSpec.specNewBrightness Field.attenuationAdjacent
        (Field.attenuationAdjacent ^ Real.sqrt 2) (Field.initWalls 3 3)
        (List.replicate 3 (List.replicate 3 ((ColorF.black : ColorF ℝ)))) ⟨1, 1⟩ := by
  have hnn : DiffusionSpec.Nonneg
      (List.replicate 3 (List.replicate 3 ((ColorF.black : ColorF ℝ)))) := by
    intro row hrow c hc
    rw [List.eq_of_mem_replicate hrow] at hc
    rw [List.eq_of_mem_replicate hc]
    refine ⟨le_refl 0, le_refl 0, le_refl 0⟩
  exact ⟨⟨by decide, by decide, by decide, hnn⟩,
    c1_diffusion_substep_formula (Field.initWalls 3 3)
      (List.replicate 3 (List.replicate 3 ((ColorF.black : ColorF ℝ)))) ⟨1, 1⟩
      (by decide) (by decide) (by decide) hnn⟩

namespace Field

variable {K : Type} [LinearOrderedField K]

theorem iterate_step_length (attA attD : K) (wall : Grid2D Bool)
    (br : Grid2D (ColorF K)) (n : Nat) :
    ((stepLightDiffusion attA attD wall)^[n] br).length = br.length := by
  induction n with
  | zero => rfl
  | succ n ih => rw [Function.iterate_succ_apply', step_length, ih]

theorem iterate_step_width (attA attD : K) (wall : Grid2D Bool)
    (br : Grid2D (ColorF K)) (n : Nat) :
    Grid2D.width ((stepLightDiffusion attA attD wall)^[n] br) = Grid2D.width br := by
  induction n with
  | zero => rfl
  | succ n ih => rw [Function.iterate_succ_apply', step_width, ih]

theorem iterate_step_rect (attA attD : K) (wall : Grid2D Bool)
    {br : Grid2D (ColorF K)} (hrect : Grid2D.Rect br) (n : Nat) :
    Grid2D.Rect ((stepLightDiffusion attA attD wall)^[n] br) := by
  cases n with
  | zero => exact hrect
  | succ n =>
    rw [Function.iterate_succ_apply']
    exact step_rect attA attD wall _

theorem step_mono (attA attD : K) (wall : Grid2D Bool) {br : Grid2D (ColorF K)}
    (hrect : Grid2D.Rect br) {p : Point} (hv : Grid2D.isValidB br p = true)
    (hw : isWall wall p = false) :
    (Grid2D.getP br ColorF.black p).r ≤
      (Grid2D.getP (stepLightDiffusion attA attD wall br) ColorF.black p).r ∧
    (Grid2D.getP br ColorF.black p).g ≤
      (Grid2D.getP (stepLightDiffusion attA attD wall br) ColorF.black p).g ∧
    (Grid2D.getP br ColorF.black p).b ≤
      (Grid2D.getP (stepLightDiffusion attA attD wall br) ColorF.black p).b := by
  rw [step_getP attA attD wall hrect hv]
  have hw2 : isWall wall (⟨p.x, p.y⟩ : Point) = false := hw
  unfold diffuseCell
  rw [if_neg (by simp [hw2])]
  exact ⟨le_max_left _ _, le_max_left _ _, le_max_left _ _⟩

end Field

/-- C6 counterexample to unrestricted per-cell monotonicity: a light stamped
while buried in the wall cell (0, 0) (the stamp checks only `isValid`) gives
the seeded buffer a bright wall cell, and the first diffusion sub-step
forces it back to black — its red channel strictly decreases from the
seeded buffer to the next sub-step. -/
theorem c6_counterexample :
    Field.isWall C6.c6wall ⟨0, 0⟩ = true ∧
    (Grid2D.getP (DoubleBuffer.read C6.c6seeded) ColorF.black ⟨0, 0⟩).r = 1 ∧
    (Grid2D.getP (DoubleBuffer.read C6.c6after) ColorF.black ⟨0, 0⟩).r <
      (Grid2D.getP (DoubleBuffer.read C6.c6seeded) ColorF.black ⟨0, 0⟩).r := by
  decide

/-- C6 amended: for every cell that is not a wall cell, each brightness
channel is monotonic non-decreasing from each diffusion sub-step to the next
within a frame's chain, starting at the seeded buffer; wall cells are
instead forced to black by every sub-step, so a wall cell holding stamped
light can decrease once. -/
theorem c6_amended_nonwall_monotone (attAq attDq : ℚ) (wall : Grid2D Bool)
    (br : Grid2D (ColorF ℚ)) (p : Point) (n : Nat)
    (hrect : Grid2D.Rect br) (hv : Grid2D.isValidB br p = true)
    (hw : Field.isWall wall p = false) :
    (Grid2D.getP ((Field.stepLightDiffusion attAq attDq wall)^[n] br)
        ColorF.black p).r ≤
      (Grid2D.getP ((Field.stepLightDiffusion attAq attDq wall)^[n + 1] br)
        ColorF.black p).r ∧
    (Grid2D.getP ((Field.stepLightDiffusion attAq attDq wall)^[n] br)
        ColorF.black p).g ≤
      (Grid2D.getP ((Field.stepLightDiffusion attAq attDq wall)^[n + 1] br)
        ColorF.black p).g ∧
    (Grid2D.getP ((Field.stepLightDiffusion attAq attDq wall)^[n] br)
        ColorF.black p).b ≤
      (Grid2D.getP ((Field.stepLightDiffusion attAq attDq wall)^[n + 1] br)
        ColorF.black p).b := by
  have hrectN : Grid2D.Rect ((Field.stepLightDiffusion attAq attDq wall)^[n] br) :=
    Field.iterate_step_rect attAq attDq wall hrect n
  have hvN : Grid2D.isValidB ((Field.stepLightDiffusion attAq attDq wall)^[n] br)
      p = true := by
    rw [Grid2D.isValidB_iff hrectN]
    rw [Grid2D.isValidB_iff hrect] at hv
    rwa [Field.iterate_step_width, Field.iterate_step_length]
  rw [Function.iterate_succ_apply']
  exact Field.step_mono attAq attDq wall hrectN hvN hw

/-- Witness for the amended C6: the non-wall center cell (1, 1) of the 3×3
scenario from the seeded buffer to the first sub-step. -/
theorem c6_amended_nonwall_monotone_witness :
    (Grid2D.Rect (DoubleBuffer.read C6.c6seeded) ∧
      Grid2D.isValidB (DoubleBuffer.read C6.c6seeded) ⟨1, 1⟩ = true ∧
      Field.isWall C6.c6wall ⟨1, 1⟩ = false) ∧
    (Grid2D.getP ((Field.stepLightDiffusion (9/10 : ℚ) (13/15) C6.c6wall)^[0]
        (DoubleBuffer.read C6.c6seeded)) ColorF.black ⟨1, 1⟩).r ≤
      (Grid2D.getP ((Field.stepLightDiffusion (9/10 : ℚ) (13/15) C6.c6wall)^[0 + 1]
        (DoubleBuffer.read C6.c6seeded)) ColorF.black ⟨1, 1⟩).r :=
  ⟨⟨by decide, by decide, by decide⟩,
   (c6_amended_nonwall_monotone (9/10) (13/15) C6.c6wall
     (DoubleBuffer.read C6.c6seeded) ⟨1, 1⟩ 0
     (by decide) (by decide) (by decide)).1⟩

/-- Witness for C8: the program's own 1280×736 window with 32-pixel cells
divides evenly and yields a 40×23 grid, while a 1000-pixel-wide field does
not divide and construction fails. -/
theorem c8_construction_divisibility_witness :
    Field.construct 1000 736 32 = none ∧
    ∃ f, Field.construct 1280 736 32 = some f ∧
      Grid2D.width f.1 = 40 ∧ Grid2D.height f.1 = 23 :=
  ⟨(c8_construction_divisibility 1000 736 32 (by decide) (by decide)).1 (by decide),
   (c8_construction_divisibility 1280 736 32 (by decide) (by decide)).2
     ⟨by decide, by decide⟩⟩

/-- Witness for C10: the interior cell (1, 1) of a border-walled 4×4 grid
and the first diagonal offset. -/
theorem c10_corner_check_in_bounds_witness :
    (Grid2D.Rect (Field.initWalls 4 4) ∧ Field.RingSolid (Field.initWalls 4 4) ∧
      Grid2D.isValidB (Field.initWalls 4 4) ⟨1, 1⟩ = true ∧
      Field.isWall (Field.initWalls 4 4) ⟨1, 1⟩ = false) ∧
    (Grid2D.isValidB (Field.initWalls 4 4)
        ⟨1 + (Field.neighbors.getD 0 ⟨0, 0⟩).x, 1⟩ = true ∧
      Grid2D.isValidB (Field.initWalls 4 4)
        ⟨1, 1 + (Field.neighbors.getD 0 ⟨0, 0⟩).y⟩ = true) :=
  ⟨⟨by decide, by decide, by decide, by decide⟩,
   c10_corner_check_in_bounds (Field.initWalls 4 4) (by decide) (by decide) ⟨1, 1⟩
     (by decide) (by decide) 0 (by decide)⟩

/-! ### The rational diffusion embeds into the larger field

The program's state is exactly rational; `castGrid` is the cell-wise
order-embedding `ℚ → K` (used at `K = ℝ`).  One diffusion sub-step commutes
with the embedding, so iterating the real-valued sub-step from an embedded
state is the embedding of the rational iteration. -/

theorem castColor_black {K : Type} [LinearOrderedField K] :
    (castColor ColorF.black : ColorF K) = ColorF.black := by
  simp [castColor, ColorF.black]

theorem length_castGrid {K : Type} [LinearOrderedField K] (g : Grid2D (ColorF ℚ)) :
    (castGrid g : Grid2D (ColorF K)).length = g.length := by
  simp [castGrid]

theorem width_castGrid {K : Type} [LinearOrderedField K] (g : Grid2D (ColorF ℚ)) :
    Grid2D.width (castGrid g : Grid2D (ColorF K)) = Grid2D.width g := by
  cases g with
  | nil => rfl
  | cons row rest => simp [castGrid, Grid2D.width]

theorem getD_castGrid_row {K : Type} [LinearOrderedField K] (g : Grid2D (ColorF ℚ))
    (n : Nat) :
    (castGrid g : Grid2D (ColorF K)).getD n [] = (g.getD n []).map castColor := by
  unfold castGrid
  simp only [List.getD_eq_getElem?_getD, List.getElem?_map]
  cases g[n]? <;> rfl

theorem getP_castGrid {K : Type} [LinearOrderedField K] (g : Grid2D (ColorF ℚ))
    (p : Point) :
    Grid2D.getP (castGrid g : Grid2D (ColorF K)) ColorF.black p =
      castColor (Grid2D.getP g ColorF.black p) := by
  unfold Grid2D.getP
  rw [getD_castGrid_row]
  simp only [List.getD_eq_getElem?_getD, List.getElem?_map]
  cases (g[p.y.toNat]?.getD [])[p.x.toNat]? with
  | none => exact castColor_black.symm
  | some c => rfl

theorem isValidB_castGrid {K : Type} [LinearOrderedField K] (g : Grid2D (ColorF ℚ))
    (p : Point) :
    Grid2D.isValidB (castGrid g : Grid2D (ColorF K)) p = Grid2D.isValidB g p := by
  unfold Grid2D.isValidB
  rw [show (castGrid g : Grid2D (ColorF K)).length = g.length from length_castGrid g,
    getD_castGrid_row, List.length_map]

theorem rect_castGrid {K : Type} [LinearOrderedField K] {g : Grid2D (ColorF ℚ)}
    (h : Grid2D.Rect g) : Grid2D.Rect (castGrid g : Grid2D (ColorF K)) := by
  intro row hrow
  rw [width_castGrid]
  unfold castGrid at hrow
  simp only [List.mem_map] at hrow
  obtain ⟨r, hr, rfl⟩ := hrow
  rw [List.length_map]
  exact h r hr

theorem gridNN_castGrid {K : Type} [LinearOrderedField K] {g : Grid2D (ColorF ℚ)}
    (h : GridNN g) : GridNN (castGrid g : Grid2D (ColorF K)) := by
  intro p
  rw [getP_castGrid]
  simp only [castColor]
  obtain ⟨h1, h2, h3⟩ := h p
  exact ⟨by exact_mod_cast h1, by exact_mod_cast h2, by exact_mod_cast h3⟩

theorem att_cast {K : Type} [LinearOrderedField K] (a d : ℚ) (i : Nat) :
    (((Field.attenuations a d).getD i 0 : ℚ) : K) =
      (Field.attenuations (a : K) (d : K)).getD i 0 := by
  rcases i with _ | _ | _ | _ | _ | _ | _ | _ | n
  · rfl
  · rfl
  · rfl
  · rfl
  · rfl
  · rfl
  · rfl
  · rfl
  · simp [Field.attenuations]

theorem codeContrib_cast {K : Type} [LinearOrderedField K] (a d : ℚ)
    (wall : Grid2D Bool) (br : Grid2D (ColorF ℚ)) (x y : Int) (i : Nat) :
    Option.map castColor (DiffusionSpec.codeContrib a d wall br x y i) =
      DiffusionSpec.codeContrib (a : K) (d : K) wall (castGrid br) x y i := by
  unfold DiffusionSpec.codeContrib
  by_cases hskip : ((i == 0 || i == 2 || i == 5 || i == 7)
      && Field.isWall wall ⟨x + (Field.neighbors.getD i ⟨0, 0⟩).x, y⟩
      && Field.isWall wall ⟨x, y + (Field.neighbors.getD i ⟨0, 0⟩).y⟩) = true
  · rw [if_pos hskip, if_pos hskip]
    rfl
  · rw [if_neg hskip, if_neg hskip]
    by_cases hv : Grid2D.isValidB br ⟨x + (Field.neighbors.getD i ⟨0, 0⟩).x,
        y + (Field.neighbors.getD i ⟨0, 0⟩).y⟩ = true
    · rw [if_pos hv, if_pos (by rw [isValidB_castGrid]; exact hv)]
      rw [getP_castGrid]
      simp only [Option.map_some', Option.some.injEq, ColorF.scale, castColor,
        ColorF.mk.injEq]
      refine ⟨?_, ?_, ?_⟩ <;> rw [Rat.cast_mul, att_cast]
    · rw [if_neg hv, if_neg (by rw [isValidB_castGrid]; exact hv)]
      rfl

theorem optFold_map_hom {K1 K2 : Type} [LinearOrderedField K1] [LinearOrderedField K2]
    (φ : K1 → K2) (hφ : ∀ x y : K1, φ (max x y) = max (φ x) (φ y))
    (ψ : ColorF K1 → ColorF K2) (hψ : ∀ c, ψ c = ⟨φ c.r, φ c.g, φ c.b⟩)
    (l : List (Option (ColorF K1))) (a : ColorF K1) :
    ψ (l.foldl (fun mb o => match o with
      | some c => (⟨max mb.r c.r, max mb.g c.g, max mb.b c.b⟩ : ColorF K1)
      | none => mb) a) =
    (l.map (Option.map ψ)).foldl (fun mb o => match o with
      | some c => (⟨max mb.r c.r, max mb.g c.g, max mb.b c.b⟩ : ColorF K2)
      | none => mb) (ψ a) := by
  induction l generalizing a with
  | nil => rfl
  | cons o t ih =>
    cases o with
    | none => simpa using ih a
    | some c =>
      simp only [List.foldl_cons, List.map_cons, Option.map_some']
      rw [ih]
      congr 1
      rw [hψ a, hψ c, hψ]
      simp [hφ]

theorem castColor_diffuseCell {K : Type} [LinearOrderedField K] (a d : ℚ)
    (wall : Grid2D Bool) (br : Grid2D (ColorF ℚ)) (x y : Int) :
    (castColor (Field.diffuseCell a d wall br x y) : ColorF K) =
      Field.diffuseCell (a : K) (d : K) wall (castGrid br) x y := by
  unfold Field.diffuseCell
  by_cases hw : Field.isWall wall ⟨x, y⟩ = true
  · rw [if_pos hw, if_pos hw, castColor_black]
  · rw [if_neg hw, if_neg hw]
    simp only [DiffusionSpec.diffuse_fold_eq]
    have hmap : (List.range 8).map (DiffusionSpec.codeContrib (a : K) (d : K) wall
        (castGrid br) x y) =
        ((List.range 8).map (DiffusionSpec.codeContrib a d wall br x y)).map
          (Option.map castColor) := by
      rw [List.map_map]
      exact List.map_congr_left (fun i _ => (codeContrib_cast a d wall br x y i).symm)
    rw [getP_castGrid, hmap,
      show (ColorF.black : ColorF K) = castColor ColorF.black from castColor_black.symm,
      ← optFold_map_hom (fun q : ℚ => (q : K)) (fun x y => Rat.cast_max x y)
        castColor (fun c => rfl)]
    simp [castColor, Rat.cast_max]

theorem castGrid_step {K : Type} [LinearOrderedField K] (a d : ℚ)
    (wall : Grid2D Bool) (br : Grid2D (ColorF ℚ)) :
    (castGrid (Field.stepLightDiffusion a d wall br) : Grid2D (ColorF K)) =
      Field.stepLightDiffusion (a : K) (d : K) wall (castGrid br) := by
  unfold Field.stepLightDiffusion
  rw [length_castGrid, width_castGrid]
  have h1 : (castGrid ((List.range br.length).map (fun y =>
      (List.range (Grid2D.width br)).map (fun x =>
        Field.diffuseCell a d wall br (Int.ofNat x) (Int.ofNat y)))) :
        Grid2D (ColorF K)) =
      (List.range br.length).map (fun y =>
        ((List.range (Grid2D.width br)).map (fun x =>
          Field.diffuseCell a d wall br (Int.ofNat x) (Int.ofNat y))).map castColor) := by
    unfold castGrid
    rw [List.map_map]
    rfl
  rw [h1]
  refine List.map_congr_left (fun y _ => ?_)
  rw [List.map_map]
  exact List.map_congr_left (fun x _ => castColor_diffuseCell a d wall br
    (Int.ofNat x) (Int.ofNat y))

theorem castGrid_iterate {K : Type} [LinearOrderedField K] (a d : ℚ)
    (wall : Grid2D Bool) (n : Nat) (g : Grid2D (ColorF ℚ)) :
    (Field.stepLightDiffusion (a : K) (d : K) wall)^[n] (castGrid g) =
      castGrid ((Field.stepLightDiffusion a d wall)^[n] g) := by
  induction n generalizing g with
  | zero => rfl
  | succ n ih =>
    rw [Function.iterate_succ_apply, Function.iterate_succ_apply,
      ← castGrid_step, ih]

theorem read_castDB {K : Type} [LinearOrderedField K]
    (db : DoubleBuffer (Grid2D (ColorF ℚ))) :
    DoubleBuffer.read (castDB db : DoubleBuffer (Grid2D (ColorF K))) =
      castGrid (DoubleBuffer.read db) := by
  obtain ⟨b0, b1, c⟩ := db
  fin_cases c <;> rfl

/-! ### Shape lemmas: bounds behaviour depends only on the row-length profile -/

theorem length_shape {α : Type} (g : Grid2D α) :
    (Grid2D.shape g).length = g.length := by
  simp [Grid2D.shape]

theorem width_eq_shape {α : Type} (g : Grid2D α) :
    Grid2D.width g = (Grid2D.shape g).headD 0 := by
  cases g <;> rfl

theorem rowlen_shape {α : Type} (g : Grid2D α) (n : Nat) :
    (g.getD n []).length = (Grid2D.shape g).getD n 0 := by
  unfold Grid2D.shape
  simp only [List.getD_eq_getElem?_getD, List.getElem?_map]
  cases g[n]? <;> rfl

theorem isValidB_shape_congr {α β : Type} {g1 : Grid2D α} {g2 : Grid2D β}
    (h : Grid2D.shape g1 = Grid2D.shape g2) (p : Point) :
    Grid2D.isValidB g1 p = Grid2D.isValidB g2 p := by
  unfold Grid2D.isValidB
  rw [rowlen_shape g1, rowlen_shape g2, show g1.length = (Grid2D.shape g1).length from
    (length_shape g1).symm, show g2.length = (Grid2D.shape g2).length from
    (length_shape g2).symm, h]

theorem shape_of_rect {α : Type} {g : Grid2D α} (h : Grid2D.Rect g) :
    Grid2D.shape g = List.replicate g.length (Grid2D.width g) := by
  refine List.eq_replicate_iff.mpr ⟨?_, ?_⟩
  · simp [Grid2D.shape]
  · intro b hb
    simp only [Grid2D.shape, List.mem_map] at hb
    obtain ⟨row, hrow, rfl⟩ := hb
    exact h row hrow

theorem getP_default_of_invalid {α : Type} (d : α) {g : Grid2D α} {q : Point}
    (h0x : 0 ≤ q.x) (h0y : 0 ≤ q.y) (hinv : ¬ Grid2D.isValidB g q = true) :
    Grid2D.getP g d q = d := by
  rcases Nat.lt_or_ge q.y.toNat g.length with hy | hy
  · have hxw : (g.getD q.y.toNat []).length ≤ q.x.toNat := by
      by_contra hlt
      push_neg at hlt
      exact hinv (by
        unfold Grid2D.isValidB
        simp only [Bool.and_eq_true, decide_eq_true_eq]
        omega)
    unfold Grid2D.getP
    rw [List.getD_eq_getElem?_getD, List.getElem?_eq_none hxw, Option.getD_none]
  · have hrow : g.getD q.y.toNat [] = [] := by
      rw [List.getD_eq_getElem?_getD, List.getElem?_eq_none hy, Option.getD_none]
    unfold Grid2D.getP
    rw [hrow]
    rfl

/-! ### Monotonicity of the diffusion sub-step in the diagonal attenuation

The write-side value of every cell is monotone in the diagonal attenuation
constant and in the read buffer (pointwise, channel-wise), for nonnegative
attenuations and a nonnegative read buffer.  This pins the real-valued
diffusion at `(9/10)^√2` between the two exactly computable rational
diffusions at bracketing diagonal constants. -/

theorem forall2_of_map {α β γ : Type} (R : β → γ → Prop) (f1 : α → β) (f2 : α → γ) :
    ∀ (l : List α), (∀ i ∈ l, R (f1 i) (f2 i)) →
      List.Forall₂ R (l.map f1) (l.map f2)
  | [], _ => List.Forall₂.nil
  | i :: t, h => List.Forall₂.cons (h i (List.mem_cons_self i t))
      (forall2_of_map R f1 f2 t (fun j hj => h j (List.mem_cons_of_mem i hj)))

theorem optFold_mono {K : Type} [LinearOrderedField K] (pr : ColorF K → K)
    {l1 l2 : List (Option (ColorF K))}
    (h : List.Forall₂ (fun o1 o2 => (o1 = none ∧ o2 = none) ∨
      ∃ c1 c2, o1 = some c1 ∧ o2 = some c2 ∧ pr c1 ≤ pr c2) l1 l2) :
    ∀ {a1 a2 : K}, a1 ≤ a2 →
      l1.foldl (fun m o => match o with | some c => max m (pr c) | none => m) a1 ≤
      l2.foldl (fun m o => match o with | some c => max m (pr c) | none => m) a2 := by
  induction h with
  | nil =>
    intro a1 a2 ha
    exact ha
  | cons hrel _ ih =>
    intro a1 a2 ha
    rcases hrel with ⟨rfl, rfl⟩ | ⟨c1, c2, rfl, rfl, hc⟩
    · exact ih ha
    · simp only [List.foldl_cons]
      exact ih (max_le_max ha hc)

theorem att_getD_mono {K : Type} [LinearOrderedField K] {a d1 d2 : K} (hd : d1 ≤ d2)
    (i : Nat) :
    (Field.attenuations a d1).getD i 0 ≤ (Field.attenuations a d2).getD i 0 := by
  rcases i with _ | _ | _ | _ | _ | _ | _ | _ | n <;>
    simp [Field.attenuations, hd]

theorem att_getD_nonneg {K : Type} [LinearOrderedField K] {a d : K} (ha : 0 ≤ a)
    (hd : 0 ≤ d) (i : Nat) :
    0 ≤ (Field.attenuations a d).getD i 0 := by
  rcases i with _ | _ | _ | _ | _ | _ | _ | _ | n <;>
    simp [Field.attenuations, ha, hd]

theorem codeContrib_rel {K : Type} [LinearOrderedField K] {a d1 d2 : K}
    (wall : Grid2D Bool) {br1 br2 : Grid2D (ColorF K)} (ha : 0 ≤ a)
    (hd0 : 0 ≤ d1) (hd : d1 ≤ d2) (hsh : Grid2D.shape br1 = Grid2D.shape br2)
    (hnn : GridNN br1) (hle : GridPW br1 br2) (x y : Int) (i : Nat) :
    (DiffusionSpec.codeContrib a d1 wall br1 x y i = none ∧
      DiffusionSpec.codeContrib a d2 wall br2 x y i = none) ∨
    ∃ c1 c2, DiffusionSpec.codeContrib a d1 wall br1 x y i = some c1 ∧
      DiffusionSpec.codeContrib a d2 wall br2 x y i = some c2 ∧
      c1.r ≤ c2.r ∧ c1.g ≤ c2.g ∧ c1.b ≤ c2.b := by
  unfold DiffusionSpec.codeContrib
  by_cases hskip : ((i == 0 || i == 2 || i == 5 || i == 7)
      && Field.isWall wall ⟨x + (Field.neighbors.getD i ⟨0, 0⟩).x, y⟩
      && Field.isWall wall ⟨x, y + (Field.neighbors.getD i ⟨0, 0⟩).y⟩) = true
  · rw [if_pos hskip, if_pos hskip]
    exact Or.inl ⟨rfl, rfl⟩
  · rw [if_neg hskip, if_neg hskip]
    by_cases hv : Grid2D.isValidB br1 ⟨x + (Field.neighbors.getD i ⟨0, 0⟩).x,
        y + (Field.neighbors.getD i ⟨0, 0⟩).y⟩ = true
    · have hv2 : Grid2D.isValidB br2 ⟨x + (Field.neighbors.getD i ⟨0, 0⟩).x,
          y + (Field.neighbors.getD i ⟨0, 0⟩).y⟩ = true := by
        rw [← isValidB_shape_congr hsh]
        exact hv
      rw [if_pos hv, if_pos hv2]
      refine Or.inr ⟨_, _, rfl, rfl, ?_, ?_, ?_⟩
      · exact mul_le_mul (hle _).1 (att_getD_mono hd i)
          (att_getD_nonneg ha hd0 i) (le_trans (hnn _).1 (hle _).1)
      · exact mul_le_mul (hle _).2.1 (att_getD_mono hd i)
          (att_getD_nonneg ha hd0 i) (le_trans (hnn _).2.1 (hle _).2.1)
      · exact mul_le_mul (hle _).2.2 (att_getD_mono hd i)
          (att_getD_nonneg ha hd0 i) (le_trans (hnn _).2.2 (hle _).2.2)
    · have hv2 : ¬ Grid2D.isValidB br2 ⟨x + (Field.neighbors.getD i ⟨0, 0⟩).x,
          y + (Field.neighbors.getD i ⟨0, 0⟩).y⟩ = true := by
        rw [← isValidB_shape_congr hsh]
        exact hv
      rw [if_neg hv, if_neg hv2]
      exact Or.inl ⟨rfl, rfl⟩

theorem diffuseCell_mono {K : Type} [LinearOrderedField K] {a d1 d2 : K}
    (wall : Grid2D Bool) {br1 br2 : Grid2D (ColorF K)} (ha : 0 ≤ a)
    (hd0 : 0 ≤ d1) (hd : d1 ≤ d2) (hsh : Grid2D.shape br1 = Grid2D.shape br2)
    (hnn : GridNN br1) (hle : GridPW br1 br2) (x y : Int) :
    (Field.diffuseCell a d1 wall br1 x y).r ≤ (Field.diffuseCell a d2 wall br2 x y).r ∧
    (Field.diffuseCell a d1 wall br1 x y).g ≤ (Field.diffuseCell a d2 wall br2 x y).g ∧
    (Field.diffuseCell a d1 wall br1 x y).b ≤ (Field.diffuseCell a d2 wall br2 x y).b := by
  unfold Field.diffuseCell
  by_cases hw : Field.isWall wall ⟨x, y⟩ = true
  · rw [if_pos hw, if_pos hw]
    exact ⟨le_refl _, le_refl _, le_refl _⟩
  · rw [if_neg hw, if_neg hw]
    simp only [DiffusionSpec.diffuse_fold_eq]
    have hF := forall2_of_map
      (fun (o1 o2 : Option (ColorF K)) => (o1 = none ∧ o2 = none) ∨
        ∃ c1 c2, o1 = some c1 ∧ o2 = some c2 ∧
          c1.r ≤ c2.r ∧ c1.g ≤ c2.g ∧ c1.b ≤ c2.b)
      (DiffusionSpec.codeContrib a d1 wall br1 x y)
      (DiffusionSpec.codeContrib a d2 wall br2 x y) (List.range 8)
      (fun i _ => codeContrib_rel wall ha hd0 hd hsh hnn hle x y i)
    refine ⟨?_, ?_, ?_⟩
    · show max (Grid2D.getP br1 ColorF.black ⟨x, y⟩).r _ ≤
        max (Grid2D.getP br2 ColorF.black ⟨x, y⟩).r _
      rw [DiffusionSpec.optFold_r, DiffusionSpec.optFold_r]
      exact max_le_max (hle ⟨x, y⟩).1
        (optFold_mono ColorF.r (hF.imp (fun o1 o2 ho => ho.imp (fun hn => hn)
          (fun hx2 => match hx2 with
            | ⟨c1, c2, e1, e2, h3⟩ => ⟨c1, c2, e1, e2, h3.1⟩))) (le_refl _))
    · show max (Grid2D.getP br1 ColorF.black ⟨x, y⟩).g _ ≤
        max (Grid2D.getP br2 ColorF.black ⟨x, y⟩).g _
      rw [DiffusionSpec.optFold_g, DiffusionSpec.optFold_g]
      exact max_le_max (hle ⟨x, y⟩).2.1
        (optFold_mono ColorF.g (hF.imp (fun o1 o2 ho => ho.imp (fun hn => hn)
          (fun hx2 => match hx2 with
            | ⟨c1, c2, e1, e2, h3⟩ => ⟨c1, c2, e1, e2, h3.2.1⟩))) (le_refl _))
    · show max (Grid2D.getP br1 ColorF.black ⟨x, y⟩).b _ ≤
        max (Grid2D.getP br2 ColorF.black ⟨x, y⟩).b _
      rw [DiffusionSpec.optFold_b, DiffusionSpec.optFold_b]
      exact max_le_max (hle ⟨x, y⟩).2.2
        (optFold_mono ColorF.b (hF.imp (fun o1 o2 ho => ho.imp (fun hn => hn)
          (fun hx2 => match hx2 with
            | ⟨c1, c2, e1, e2, h3⟩ => ⟨c1, c2, e1, e2, h3.2.2⟩))) (le_refl _))

theorem step_mono_pw {K : Type} [LinearOrderedField K] {a d1 d2 : K}
    (wall : Grid2D Bool) {br1 br2 : Grid2D (ColorF K)} (ha : 0 ≤ a)
    (hd0 : 0 ≤ d1) (hd : d1 ≤ d2) (hr1 : Grid2D.Rect br1) (hr2 : Grid2D.Rect br2)
    (hsh : Grid2D.shape br1 = Grid2D.shape br2) (hnn : GridNN br1)
    (hle : GridPW br1 br2) :
    GridPW (Field.stepLightDiffusion a d1 wall br1)
      (Field.stepLightDiffusion a d2 wall br2) := by
  have hlen : br1.length = br2.length := by
    rw [← length_shape br1, ← length_shape br2, hsh]
  have hwid : Grid2D.width br1 = Grid2D.width br2 := by
    rw [width_eq_shape br1, width_eq_shape br2, hsh]
  have hshs : Grid2D.shape (Field.stepLightDiffusion a d1 wall br1) =
      Grid2D.shape (Field.stepLightDiffusion a d2 wall br2) := by
    rw [shape_of_rect (Field.step_rect a d1 wall br1),
      shape_of_rect (Field.step_rect a d2 wall br2),
      Field.step_length, Field.step_length, Field.step_width, Field.step_width,
      hlen, hwid]
  have main : ∀ q : Point, 0 ≤ q.x → 0 ≤ q.y →
      (Grid2D.getP (Field.stepLightDiffusion a d1 wall br1) ColorF.black q).r ≤
        (Grid2D.getP (Field.stepLightDiffusion a d2 wall br2) ColorF.black q).r ∧
      (Grid2D.getP (Field.stepLightDiffusion a d1 wall br1) ColorF.black q).g ≤
        (Grid2D.getP (Field.stepLightDiffusion a d2 wall br2) ColorF.black q).g ∧
      (Grid2D.getP (Field.stepLightDiffusion a d1 wall br1) ColorF.black q).b ≤
        (Grid2D.getP (Field.stepLightDiffusion a d2 wall br2) ColorF.black q).b := by
    intro q h0x h0y
    by_cases hv : Grid2D.isValidB (Field.stepLightDiffusion a d1 wall br1) q = true
    · have hvin : Grid2D.isValidB br1 q = true := by
        rw [Grid2D.isValidB_iff (Field.step_rect a d1 wall br1)] at hv
        rw [Field.step_width, Field.step_length] at hv
        rw [Grid2D.isValidB_iff hr1]
        exact hv
      have hvin2 : Grid2D.isValidB br2 q = true := by
        rw [← isValidB_shape_congr hsh]
        exact hvin
      rw [Field.step_getP a d1 wall hr1 hvin, Field.step_getP a d2 wall hr2 hvin2]
      exact diffuseCell_mono wall ha hd0 hd hsh hnn hle q.x q.y
    · have hv2 : ¬ Grid2D.isValidB (Field.stepLightDiffusion a d2 wall br2) q = true := by
        rw [← isValidB_shape_congr hshs]
        exact hv
      rw [getP_default_of_invalid ColorF.black h0x h0y hv,
        getP_default_of_invalid ColorF.black h0x h0y hv2]
      exact ⟨le_refl _, le_refl _, le_refl _⟩
  intro p
  exact main ⟨(p.x.toNat : Int), (p.y.toNat : Int)⟩ (Int.ofNat_nonneg _) (Int.ofNat_nonneg _)

theorem gridNN_step {K : Type} [LinearOrderedField K] (a d : K) (wall : Grid2D Bool)
    {br : Grid2D (ColorF K)} (hr : Grid2D.Rect br) (hnn : GridNN br) :
    GridNN (Field.stepLightDiffusion a d wall br) := by
  have main : ∀ q : Point, 0 ≤ q.x → 0 ≤ q.y →
      0 ≤ (Grid2D.getP (Field.stepLightDiffusion a d wall br) ColorF.black q).r ∧
      0 ≤ (Grid2D.getP (Field.stepLightDiffusion a d wall br) ColorF.black q).g ∧
      0 ≤ (Grid2D.getP (Field.stepLightDiffusion a d wall br) ColorF.black q).b := by
    intro q h0x h0y
    by_cases hv : Grid2D.isValidB (Field.stepLightDiffusion a d wall br) q = true
    · have hvin : Grid2D.isValidB br q = true := by
        rw [Grid2D.isValidB_iff (Field.step_rect a d wall br)] at hv
        rw [Field.step_width, Field.step_length] at hv
        rw [Grid2D.isValidB_iff hr]
        exact hv
      rw [Field.step_getP a d wall hr hvin]
      unfold Field.diffuseCell
      by_cases hw : Field.isWall wall ⟨q.x, q.y⟩ = true
      · rw [if_pos hw]
        exact ⟨le_refl _, le_refl _, le_refl _⟩
      · rw [if_neg hw]
        exact ⟨le_trans (hnn ⟨q.x, q.y⟩).1 (le_max_left _ _),
          le_trans (hnn ⟨q.x, q.y⟩).2.1 (le_max_left _ _),
          le_trans (hnn ⟨q.x, q.y⟩).2.2 (le_max_left _ _)⟩
    · rw [getP_default_of_invalid ColorF.black h0x h0y hv]
      exact ⟨le_refl _, le_refl _, le_refl _⟩
  intro p
  exact main ⟨(p.x.toNat : Int), (p.y.toNat : Int)⟩ (Int.ofNat_nonneg _) (Int.ofNat_nonneg _)

theorem gridNN_iterate {K : Type} [LinearOrderedField K] (a d : K)
    (wall : Grid2D Bool) {br : Grid2D (ColorF K)} (hr : Grid2D.Rect br)
    (hnn : GridNN br) (n : Nat) :
    GridNN ((Field.stepLightDiffusion a d wall)^[n] br) := by
  induction n with
  | zero => exact hnn
  | succ n ih =>
    rw [Function.iterate_succ_apply']
    exact gridNN_step a d wall (Field.iterate_step_rect a d wall hr n) ih

theorem iterate_step_pw {K : Type} [LinearOrderedField K] {a d1 d2 : K}
    (wall : Grid2D Bool) {br : Grid2D (ColorF K)} (ha : 0 ≤ a) (hd0 : 0 ≤ d1)
    (hd : d1 ≤ d2) (hr : Grid2D.Rect br) (hnn : GridNN br) (n : Nat) :
    GridPW ((Field.stepLightDiffusion a d1 wall)^[n] br)
      ((Field.stepLightDiffusion a d2 wall)^[n] br) := by
  induction n with
  | zero =>
    show GridPW br br
    intro p
    exact ⟨le_refl _, le_refl _, le_refl _⟩
  | succ n ih =>
    rw [Function.iterate_succ_apply', Function.iterate_succ_apply']
    have hsh : Grid2D.shape ((Field.stepLightDiffusion a d1 wall)^[n] br) =
        Grid2D.shape ((Field.stepLightDiffusion a d2 wall)^[n] br) := by
      rw [shape_of_rect (Field.iterate_step_rect a d1 wall hr n),
        shape_of_rect (Field.iterate_step_rect a d2 wall hr n),
        Field.iterate_step_length, Field.iterate_step_length,
        Field.iterate_step_width, Field.iterate_step_width]
    exact step_mono_pw wall ha hd0 hd
      (Field.iterate_step_rect a d1 wall hr n)
      (Field.iterate_step_rect a d2 wall hr n) hsh
      (gridNN_iterate a d1 wall hr hnn n) ih

/-! ### Rational brackets for the diagonal attenuation `(9/10) ^ √2` -/

theorem attAdj_pos : 0 < Field.attenuationAdjacent := by
  norm_num [Field.attenuationAdjacent]

theorem attAdj_le_one : Field.attenuationAdjacent ≤ 1 := by
  norm_num [Field.attenuationAdjacent]

theorem sqrt_two_lb : (7 : ℝ) / 5 ≤ Real.sqrt 2 := by
  rw [show (7 : ℝ) / 5 = Real.sqrt ((7 / 5) ^ 2) from (Real.sqrt_sq (by norm_num)).symm]
  exact Real.sqrt_le_sqrt (by norm_num)

theorem sqrt_two_ub : Real.sqrt 2 ≤ (3 : ℝ) / 2 := by
  rw [show (3 : ℝ) / 2 = Real.sqrt ((3 / 2) ^ 2) from (Real.sqrt_sq (by norm_num)).symm]
  exact Real.sqrt_le_sqrt (by norm_num)

theorem attDiag_nonneg : 0 ≤ Field.attenuationDiagonal :=
  Real.rpow_nonneg (le_of_lt attAdj_pos) _

theorem attDiag_ub : Field.attenuationDiagonal ≤ 87 / 100 := by
  unfold Field.attenuationDiagonal
  have h1 : Field.attenuationAdjacent ^ Real.sqrt 2 ≤
      Field.attenuationAdjacent ^ ((7 : ℝ) / 5) :=
    Real.rpow_le_rpow_of_exponent_ge attAdj_pos attAdj_le_one sqrt_two_lb
  refine h1.trans ?_
  have he : (Field.attenuationAdjacent ^ ((7 : ℝ) / 5)) ^ (5 : ℕ) =
      Field.attenuationAdjacent ^ (7 : ℕ) := by
    rw [← Real.rpow_natCast (Field.attenuationAdjacent ^ ((7 : ℝ) / 5)) 5,
      ← Real.rpow_mul (le_of_lt attAdj_pos),
      show (7 : ℝ) / 5 * ((5 : ℕ) : ℝ) = ((7 : ℕ) : ℝ) by norm_num,
      Real.rpow_natCast]
  have hkey : (Field.attenuationAdjacent ^ ((7 : ℝ) / 5)) ^ (5 : ℕ) ≤
      ((87 : ℝ) / 100) ^ (5 : ℕ) := by
    rw [he]
    norm_num [Field.attenuationAdjacent]
  exact le_of_pow_le_pow_left₀ (by norm_num) (by norm_num) hkey

theorem attDiag_lb : 17 / 20 ≤ Field.attenuationDiagonal := by
  unfold Field.attenuationDiagonal
  have h1 : Field.attenuationAdjacent ^ ((3 : ℝ) / 2) ≤
      Field.attenuationAdjacent ^ Real.sqrt 2 :=
    Real.rpow_le_rpow_of_exponent_ge attAdj_pos attAdj_le_one sqrt_two_ub
  refine le_trans ?_ h1
  have he : (Field.attenuationAdjacent ^ ((3 : ℝ) / 2)) ^ (2 : ℕ) =
      Field.attenuationAdjacent ^ (3 : ℕ) := by
    rw [← Real.rpow_natCast (Field.attenuationAdjacent ^ ((3 : ℝ) / 2)) 2,
      ← Real.rpow_mul (le_of_lt attAdj_pos),
      show (3 : ℝ) / 2 * ((2 : ℕ) : ℝ) = ((3 : ℕ) : ℝ) by norm_num,
      Real.rpow_natCast]
  have hkey : ((17 : ℝ) / 20) ^ (2 : ℕ) ≤
      (Field.attenuationAdjacent ^ ((3 : ℝ) / 2)) ^ (2 : ℕ) := by
    rw [he]
    norm_num [Field.attenuationAdjacent]
  exact le_of_pow_le_pow_left₀ (by norm_num)
    (Real.rpow_nonneg (le_of_lt attAdj_pos) _) hkey

/-! ### The C5 scenario at the true constants -/

theorem c5_black_lo : ∀ p ∈ C5.c5allCells, p ∉ C5.c5reachLit →
    Grid2D.getP C5.c5lo4 ColorF.black p = ColorF.black := by decide

theorem c5_black_hi : ∀ p ∈ C5.c5allCells, p ∉ C5.c5reachLit →
    Grid2D.getP C5.c5hi4 ColorF.black p = ColorF.black := by decide

theorem c5_squeeze (p : Point) (vq : ColorF ℚ)
    (hlo : Grid2D.getP C5.c5lo4 ColorF.black p = vq)
    (hhi : Grid2D.getP C5.c5hi4 ColorF.black p = vq) :
    Grid2D.getP C5.c5finalR ColorF.black p = castColor vq := by
  have hread : DoubleBuffer.read (castDB C5.c5seeded : DoubleBuffer (Grid2D (ColorF ℝ))) =
      castGrid C5.c5r0 := by
    rw [read_castDB, C5.c5_read_seeded]
  have hS : C5.c5finalR = (Field.stepLightDiffusion Field.attenuationAdjacent
      Field.attenuationDiagonal C5.c5wall)^[30] (castGrid C5.c5r0) := by
    unfold C5.c5finalR
    rw [Field.read_iterate_stepDB, hread]
  have haA : ((9 / 10 : ℚ) : ℝ) = Field.attenuationAdjacent := by
    norm_num [Field.attenuationAdjacent]
  have hdLo : ((C5.c5dLo : ℚ) : ℝ) = (17 : ℝ) / 20 := by
    norm_num [C5.c5dLo]
  have hdHi : ((C5.c5dHi : ℚ) : ℝ) = (87 : ℝ) / 100 := by
    norm_num [C5.c5dHi]
  have hLo : (Field.stepLightDiffusion Field.attenuationAdjacent ((C5.c5dLo : ℚ) : ℝ)
      C5.c5wall)^[30] (castGrid C5.c5r0) = castGrid C5.c5lo4 := by
    rw [← haA, castGrid_iterate]
    exact congrArg castGrid C5.c5_lo_final
  have hHi : (Field.stepLightDiffusion Field.attenuationAdjacent ((C5.c5dHi : ℚ) : ℝ)
      C5.c5wall)^[30] (castGrid C5.c5r0) = castGrid C5.c5hi4 := by
    rw [← haA, castGrid_iterate]
    exact congrArg castGrid C5.c5_hi_final
  have hrect : Grid2D.Rect (castGrid C5.c5r0 : Grid2D (ColorF ℝ)) :=
    rect_castGrid (by decide)
  have hnn0 : DiffusionSpec.Nonneg C5.c5r0 := by
    unfold DiffusionSpec.Nonneg
    decide
  have hnn : GridNN (castGrid C5.c5r0 : Grid2D (ColorF ℝ)) :=
    gridNN_castGrid (fun q => DiffusionSpec.getP_black_nonneg hnn0 q)
  have h1 : GridPW (castGrid C5.c5lo4) C5.c5finalR := by
    rw [hS, ← hLo]
    refine iterate_step_pw C5.c5wall ?_ ?_ ?_ hrect hnn 30
    · exact le_of_lt attAdj_pos
    · rw [hdLo]
      norm_num
    · rw [hdLo]
      exact attDiag_lb
  have h2 : GridPW C5.c5finalR (castGrid C5.c5hi4) := by
    rw [hS, ← hHi]
    refine iterate_step_pw C5.c5wall ?_ ?_ ?_ hrect hnn 30
    · exact le_of_lt attAdj_pos
    · exact attDiag_nonneg
    · rw [hdHi]
      exact attDiag_ub
  obtain ⟨l1, l2, l3⟩ := h1 p
  obtain ⟨u1, u2, u3⟩ := h2 p
  rw [getP_castGrid, hlo] at l1 l2 l3
  rw [getP_castGrid, hhi] at u1 u2 u3
  refine ColorF.ext ?_ ?_ ?_
  · exact le_antisymm u1 l1
  · exact le_antisymm u2 l2
  · exact le_antisymm u3 l3

/-- C5: for the single light of color `c5color` resting at the center cell
(5, 5) of the 10×10 field whose only walls are the border ring, after the
frame's seed stamping and 30 diffusion sub-steps at the source constants
(orthogonal attenuation 9/10, diagonal attenuation `pow(9/10, √2)`): the
brightness at the light's cell is the full color; at each cell one
orthogonal step away it is the color times the orthogonal constant; at each
cell two orthogonal steps away it is the color times the orthogonal
constant squared; and every cell with no open path from the light (here the
wall ring itself) holds the darkest value. -/
theorem c5_end_to_end :
    Grid2D.getP C5.c5finalR ColorF.black ⟨5, 5⟩ = castColor C5.c5color ∧
    (∀ dd ∈ [(⟨1, 0⟩ : Point), ⟨-1, 0⟩, ⟨0, 1⟩, ⟨0, -1⟩],
      Grid2D.getP C5.c5finalR ColorF.black (⟨5, 5⟩ + dd) =
        ColorF.scale Field.attenuationAdjacent (castColor C5.c5color) ∧
      Grid2D.getP C5.c5finalR ColorF.black (⟨5, 5⟩ + dd + dd) =
        ColorF.scale (Field.attenuationAdjacent ^ 2) (castColor C5.c5color)) ∧
    (∀ p ∈ C5.c5allCells, p ∉ C5.c5reach →
      Grid2D.getP C5.c5finalR ColorF.black p = ColorF.black) := by
  have hsc1 : (castColor (ColorF.scale (9 / 10 : ℚ) C5.c5color) : ColorF ℝ) =
      ColorF.scale Field.attenuationAdjacent (castColor C5.c5color) := by
    simp only [castColor, ColorF.scale, ColorF.mk.injEq]
    push_cast
    norm_num [Field.attenuationAdjacent]
  have hsc2 : (castColor (ColorF.scale ((9 / 10 : ℚ) ^ 2) C5.c5color) : ColorF ℝ) =
      ColorF.scale (Field.attenuationAdjacent ^ 2) (castColor C5.c5color) := by
    simp only [castColor, ColorF.scale, ColorF.mk.injEq]
    push_cast
    norm_num [Field.attenuationAdjacent]
  refine ⟨?_, ?_, ?_⟩
  · exact c5_squeeze ⟨5, 5⟩ C5.c5color (by decide) (by decide)
  · intro dd hdd
    fin_cases hdd <;>
      exact ⟨by
          rw [← hsc1]
          exact c5_squeeze _ (ColorF.scale (9 / 10 : ℚ) C5.c5color)
            (by decide) (by decide),
        by
          rw [← hsc2]
          exact c5_squeeze _ (ColorF.scale ((9 / 10 : ℚ) ^ 2) C5.c5color)
            (by decide) (by decide)⟩
  · intro p hp hnr
    rw [C5.c5_reach_eq] at hnr
    have h := c5_squeeze p ColorF.black (c5_black_lo p hp hnr) (c5_black_hi p hp hnr)
    rwa [castColor_black] at h
